import Mathlib

/-
Shallow embedding of the connection state machine and 802.11
authentication/association core of the iwd wireless daemon
(src/netdev.c and src/ap.c), together with theorems checking the
natural-language specification against it.

Conventions used throughout:
- byte strings are `List Nat` (each entry is one octet);
- machine-integer wraparound is made explicit (`% 65536` for uint16
  increments) where the C type can overflow on the modelled paths;
- functions from translation units that are not part of the provided
  sources (the IE codec ie.c, the WSC codec wscutil.c, crypto helpers)
  are uninterpreted parameters collected in codec structures, so that
  every theorem quantifies over their behaviour;
- asynchronous netlink activity is modelled by explicit state passing:
  each C callback becomes a function from the netdev/ap state to the
  new state plus the list of netlink commands / cancellations / events
  it emits, in emission order.
-/

namespace Iwd

/-- Byte strings: one `Nat` per octet. -/
abbrev Bytes := List Nat

/-! ## Constants from mpdu.h / mmpdu.h / ie.h / wsc.h / nl80211.h -/

def MPDU_REASON_CODE_UNSPECIFIED : Nat := 1
def MPDU_REASON_CODE_DEAUTH_LEAVING : Nat := 3
def MMPDU_REASON_CODE_UNSPECIFIED : Nat := 1
def MMPDU_REASON_CODE_CLASS3_FRAME_FROM_NONASSOC_STA : Nat := 7
def MMPDU_REASON_CODE_STA_REQ_ASSOC_WITHOUT_AUTH : Nat := 9
def MMPDU_REASON_CODE_INVALID_IE : Nat := 13
def MMPDU_REASON_CODE_INVALID_GROUP_CIPHER : Nat := 41
def MMPDU_REASON_CODE_INVALID_PAIRWISE_CIPHER : Nat := 42
def MMPDU_REASON_CODE_INVALID_AKMP : Nat := 43
def MMPDU_AUTH_ALGO_OPEN_SYSTEM : Nat := 0

def IE_TYPE_SSID : Nat := 0
def IE_TYPE_SUPPORTED_RATES : Nat := 1
def IE_TYPE_RSN : Nat := 48
def IE_TYPE_EXTENDED_SUPPORTED_RATES : Nat := 50
def IE_TYPE_MOBILITY_DOMAIN : Nat := 54
def IE_TYPE_FAST_BSS_TRANSITION : Nat := 55

/-- ie.h: IE_RSN_AKM_SUITE_PSK as a one-bit mask in the AKM bitmap. -/
def IE_RSN_AKM_SUITE_PSK : Nat := 2

def WSC_CONFIGURATION_METHOD_PUSH_BUTTON : Nat := 128
def WSC_DEVICE_PASSWORD_ID_PUSH_BUTTON : Nat := 4
def WSC_REQUEST_TYPE_ENROLLEE_OPEN_8021X : Nat := 1

def NL80211_CMD_AUTHENTICATE : Nat := 37
def NL80211_CMD_ASSOCIATE : Nat := 38
def NL80211_AUTHTYPE_FT : Nat := 2

/-! ## IE codec data (parse results as structured values)

The IE codec lives in ie.c which is not among the provided sources;
its parse results are the structures below and the parse/build
functions themselves are uninterpreted fields of `IeCodec`. -/

/-- Parse result of ie_parse_rsne_from_data (struct ie_rsn_info). -/
structure RsnInfo where
  pairwiseCiphers : Nat
  groupCipher : Nat
  akmSuites : Nat
  mfpr : Bool
  sppAMsduRequired : Bool
  numPmkids : Nat
  pmkids : Bytes
  deriving Repr, DecidableEq

/-- Parse result of ie_parse_fast_bss_transition_from_data (struct ie_ft_info). -/
structure FtInfo where
  micElementCount : Nat
  mic : Bytes
  anonce : Bytes
  snonce : Bytes
  r0khid : Bytes
  r1khidPresent : Bool
  r1khid : Bytes
  gtk : Bytes
  gtkKeyId : Nat
  gtkRsc : Bytes
  igtk : Bytes
  igtkKeyId : Nat
  igtkIpn : Bytes
  deriving Repr, DecidableEq

/-- The fields of struct handshake_state that the modelled netdev.c
paths read or write. -/
structure HandshakeState where
  ownIe : Option Bytes
  apIe : Option Bytes
  mde : Option Bytes
  pmkR0Name : Bytes
  pmkR1Name : Bytes
  anonce : Bytes
  snonce : Bytes
  r0khid : Bytes
  r1khid : Bytes
  aa : Bytes
  ssid : Bytes
  deriving Repr, DecidableEq

/-- Uninterpreted IE-codec and crypto helpers used by netdev.c: they
are implemented in ie.c / util.c / crypto.c which are outside the
provided sources, so every theorem quantifies over them.
`calcFteMic` is ft_calculate_fte_mic applied to raw frame bytes;
`calcFteMicInfo` is the same function applied to the structured build
inputs used on the frame-construction side. -/
structure IeCodec where
  parseRsne : Bytes → Option RsnInfo
  parseFte : Bytes → Option FtInfo
  apIeMatches : Bytes → Option Bytes → Bool
  calcFteMic : HandshakeState → Nat → Option Bytes → Bytes → Option Bytes
  calcFteMicInfo : HandshakeState → Nat → Option RsnInfo → FtInfo → Option Bytes
  decodeFteKey : HandshakeState → Bytes → Option Bytes

/-! ## netdev.c: association response IE validation (C1) -/

/-- netdev_handle_associate_resp_ies (netdev.c).  Returns the boolean
verdict of the C function; the side effects it performs on success
(installing GTK/IGTK, recording the FTE and KH-IDs) do not influence
the verdict and are not modelled here. -/
def netdev_handle_associate_resp_ies (c : IeCodec) (hs : HandshakeState)
    (rsne mde fte : Option Bytes) (transition : Bool) : Bool :=
  let sentMde := hs.mde
  let isRsn := hs.ownIe.isSome
  let rsneOk : Bool :=
    if transition && isRsn then
      match rsne with
      | none => false
      | some r =>
        match c.parseRsne r with
        | none => false
        | some info =>
          decide (info.numPmkids = 1) &&
          decide (info.pmkids.take 16 = hs.pmkR1Name.take 16) &&
          c.apIeMatches r hs.apIe
    else rsne.isNone
  let mdeOk : Bool :=
    match sentMde, mde with
    | none, _ => true
    | some _, none => false
    | some sm, some m => decide (m.take sm.length = sm)
  let fteRequiredOk : Bool :=
    (!(sentMde.isSome && isRsn) || fte.isSome) &&
    ((sentMde.isSome && isRsn) || fte.isNone)
  let fteOk : Bool :=
    match fte with
    | none => true
    | some f =>
      match c.parseFte f with
      | none => false
      | some ft =>
        if transition then
          (match c.calcFteMic hs 6 rsne f with
           | none => false
           | some mic =>
             decide (ft.micElementCount = 3) &&
             decide (ft.mic.take 16 = mic.take 16)) &&
          decide (hs.r0khid = ft.r0khid) &&
          ft.r1khidPresent &&
          decide (ft.r1khid.take 6 = hs.r1khid.take 6) &&
          decide (ft.anonce.take 32 = hs.anonce.take 32) &&
          decide (ft.snonce.take 32 = hs.snonce.take 32) &&
          (if ft.gtk.length ≠ 0 then
            match c.decodeFteKey hs ft.gtk with
            | none => false
            | some _ =>
              decide (ft.gtkRsc.getD 6 0 = 0) && decide (ft.gtkRsc.getD 7 0 = 0)
          else true) &&
          (if ft.igtk.length ≠ 0 then (c.decodeFteKey hs ft.igtk).isSome else true)
        else
          decide (ft.micElementCount = 0) &&
          decide (ft.mic.take 16 = List.replicate 16 0) &&
          decide (ft.anonce.take 32 = List.replicate 32 0) &&
          decide (ft.snonce.take 32 = List.replicate 32 0)
  rsneOk && mdeOk && fteRequiredOk && fteOk

/-- The connect-event attributes that netdev_connect_event reads:
NL80211_ATTR_TIMED_OUT presence, NL80211_ATTR_STATUS_CODE (recorded
only when it is a well-sized uint16), NL80211_ATTR_RESP_IE as a
TLV sequence of (tag, data) pairs. -/
structure ConnectEvent where
  timedOut : Bool
  statusCode : Option Nat
  respIes : Option (List (Nat × Bytes))
  deriving Repr, DecidableEq

/-- Reassemble a full IE (tag, length, data) the way the C code keeps
a pointer to ie_tlv_iter_get_data minus 2. -/
def ieBytes (t : Nat) (d : Bytes) : Bytes := t :: d.length :: d

/-- The RESP_IE scan loop of netdev_connect_event: record the RSNE,
MDE and FTE, failing (`none`) on a duplicate of any of the three. -/
def findConnectIes : List (Nat × Bytes) → Option Bytes → Option Bytes → Option Bytes →
    Option (Option Bytes × Option Bytes × Option Bytes)
  | [], r, m, f => some (r, m, f)
  | (t, d) :: rest, r, m, f =>
    if t = IE_TYPE_RSN then
      if r.isSome then none else findConnectIes rest (some (ieBytes t d)) m f
    else if t = IE_TYPE_MOBILITY_DOMAIN then
      if m.isSome then none else findConnectIes rest r (some (ieBytes t d)) f
    else if t = IE_TYPE_FAST_BSS_TRANSITION then
      if f.isSome then none else findConnectIes rest r m (some (ieBytes t d))
    else findConnectIes rest r m f

/-- How netdev_connect_event ends: ignored (not connected), the error
path (result := NETDEV_RESULT_ASSOCIATION_FAILED and
netdev_connect_failed), the three success continuations. -/
inductive ConnectEventOutcome
  | ignored
  | assocFailed
  | ftComplete
  | fourWayHandshake
  | linkModeUp
  deriving Repr, DecidableEq

/-- The slice of struct netdev that netdev_connect_event reads. -/
structure ConnState where
  connected : Bool
  inFt : Bool
  hs : HandshakeState
  deriving Repr, DecidableEq

/-- netdev_connect_event (netdev.c). -/
def netdev_connect_event (c : IeCodec) (st : ConnState) (ev : ConnectEvent) :
    ConnectEventOutcome :=
  if !st.connected then .ignored
  else if ev.timedOut then .assocFailed
  else
    match ev.statusCode with
    | none => .assocFailed
    | some sc =>
      if sc ≠ 0 then .assocFailed
      else
        match (match ev.respIes with
               | none => some (none, none, none)
               | some ies => findConnectIes ies none none none) with
        | none => .assocFailed
        | some (rsne, mde, fte) =>
          if !netdev_handle_associate_resp_ies c st.hs rsne mde fte st.inFt then
            .assocFailed
          else if st.inFt then .ftComplete
          else if st.hs.ownIe.isSome then .fourWayHandshake
          else .linkModeUp

/-- Helper: characterization of netdev_handle_associate_resp_ies in the
non-transition case. -/
theorem handle_assoc_resp_non_ft_iff (c : IeCodec) (hs : HandshakeState)
    (rsne mde fte : Option Bytes) :
    netdev_handle_associate_resp_ies c hs rsne mde fte false = true ↔
      (rsne = none ∧
       (∀ sm, hs.mde = some sm → ∃ m, mde = some m ∧ m.take sm.length = sm) ∧
       ((hs.mde.isSome ∧ hs.ownIe.isSome) ↔ fte.isSome) ∧
       (∀ f, fte = some f → ∃ ft, c.parseFte f = some ft ∧
         ft.micElementCount = 0 ∧ ft.mic.take 16 = List.replicate 16 0 ∧
         ft.anonce.take 32 = List.replicate 32 0 ∧
         ft.snonce.take 32 = List.replicate 32 0)) := by
  obtain ⟨ownIe, apIe, sentMde, r0n, r1n, an, sn, r0, r1, aa, ssid⟩ := hs
  unfold netdev_handle_associate_resp_ies
  cases rsne with
  | some r => simp
  | none =>
    cases sentMde with
    | none =>
      cases fte with
      | none =>
        cases ownIe <;> simp
      | some f =>
        cases ownIe <;> cases hp : c.parseFte f <;> simp [hp]
    | some sm =>
      cases mde with
      | none =>
        simp
      | some m =>
        cases ownIe with
        | none =>
          cases fte with
          | none => simp
          | some f => cases hp : c.parseFte f <;> simp [hp]
        | some own =>
          cases fte with
          | none => simp
          | some f =>
            cases hp : c.parseFte f <;> simp [hp]
            tauto

/-- A concrete instantiation of the uninterpreted IE codec, used by
counterexamples and witnesses. -/
def nullCodec : IeCodec where
  parseRsne := fun _ => none
  parseFte := fun _ => none
  apIeMatches := fun _ _ => false
  calcFteMic := fun _ _ _ _ => none
  calcFteMicInfo := fun _ _ _ _ => none
  decodeFteKey := fun _ _ => none

/-- A handshake state with an RSN requested (own_ie set) and no MDE. -/
def c1Hs : HandshakeState :=
  { ownIe := some [48, 2, 1, 0], apIe := none, mde := none,
    pmkR0Name := [], pmkR1Name := [], anonce := [], snonce := [],
    r0khid := [], r1khid := [], aa := [], ssid := [] }

/-- Claim C1 counterexample.  First, in a successful non-FT CONNECT
event with an RSN requested the code does NOT require a response RSNE:
with no RSNE among the response IEs the attempt proceeds to the 4-Way
Handshake, while with an RSNE present it ends with AssociationFailed —
the opposite of the claimed requirement.  Second, the code does NOT
reject unexpected IEs: a response carrying an unknown-tag IE and an
unsolicited MDE (none was sent) is accepted. -/
theorem c1_counterexample :
    netdev_connect_event nullCodec ⟨true, false, c1Hs⟩
        ⟨false, some 0, some []⟩ = ConnectEventOutcome.fourWayHandshake ∧
    netdev_connect_event nullCodec ⟨true, false, c1Hs⟩
        ⟨false, some 0, some [(48, [1, 0])]⟩ =
      ConnectEventOutcome.assocFailed ∧
    netdev_connect_event nullCodec ⟨true, false, c1Hs⟩
        ⟨false, some 0, some [(0, [1]), (54, [1, 2, 3])]⟩ =
      ConnectEventOutcome.fourWayHandshake := by
  exact ⟨rfl, rfl, rfl⟩

/-- Claim C1 (amended): on a successful non-FT CONNECT event (status 0,
not timed out) the STA considers only the RSNE, MDE and FTE among the
response IEs, rejecting a duplicate of any of the three and ignoring
other unexpected IEs (unknown tags and an unsolicited MDE are
accepted); it requires the response to contain NO RSNE, requires an
FTE exactly when this is an FT initial mobility-domain association (an
MDE was sent and an RSN was requested) and that FTE to parse with MIC
element count 0 and zero MIC/ANonce/SNonce, and requires any MDE it
sent to be echoed bit-compare-equal; the attempt ends with
AssociationFailed exactly when one of these checks fails. -/
theorem netdev_connect_event_non_ft_checks (c : IeCodec) (st : ConnState)
    (ev : ConnectEvent) (ies : List (Nat × Bytes))
    (hconn : st.connected = true) (hft : st.inFt = false)
    (hto : ev.timedOut = false) (hsc : ev.statusCode = some 0)
    (hies : ev.respIes = some ies) :
    (findConnectIes ies none none none = none →
      netdev_connect_event c st ev = ConnectEventOutcome.assocFailed) ∧
    (∀ rsne mde fte,
      findConnectIes ies none none none = some (rsne, mde, fte) →
      (netdev_connect_event c st ev ≠ ConnectEventOutcome.assocFailed ↔
        (rsne = none ∧
         (∀ sm, st.hs.mde = some sm →
           ∃ m, mde = some m ∧ m.take sm.length = sm) ∧
         ((st.hs.mde.isSome ∧ st.hs.ownIe.isSome) ↔ fte.isSome) ∧
         (∀ f, fte = some f → ∃ ft, c.parseFte f = some ft ∧
           ft.micElementCount = 0 ∧ ft.mic.take 16 = List.replicate 16 0 ∧
           ft.anonce.take 32 = List.replicate 32 0 ∧
           ft.snonce.take 32 = List.replicate 32 0)))) := by
  constructor
  · intro hdup
    unfold netdev_connect_event
    rw [hconn, hto, hsc, hies]
    simp [hdup]
  · intro rsne mde fte hex
    rw [← handle_assoc_resp_non_ft_iff c st.hs rsne mde fte]
    unfold netdev_connect_event
    rw [hconn, hto, hsc, hies, hft]
    simp only [hex]
    cases h : netdev_handle_associate_resp_ies c st.hs rsne mde fte false <;>
      cases hown : st.hs.ownIe <;> simp [h, hown]

/-- Claim C1 witness: the amended theorem applied at concrete inputs,
exercising both the duplicate-RSNE rejection and the
all-checks-pass characterization. -/
theorem c1_witness :
    netdev_connect_event nullCodec ⟨true, false, c1Hs⟩
        ⟨false, some 0, some [(48, [1, 0]), (48, [1, 0])]⟩ =
      ConnectEventOutcome.assocFailed ∧
    (netdev_connect_event nullCodec ⟨true, false, c1Hs⟩
        ⟨false, some 0, some []⟩ ≠ ConnectEventOutcome.assocFailed ↔
      ((none : Option Bytes) = none ∧
       (∀ sm, c1Hs.mde = some sm →
         ∃ m, (none : Option Bytes) = some m ∧ m.take sm.length = sm) ∧
       ((c1Hs.mde.isSome ∧ c1Hs.ownIe.isSome) ↔ (none : Option Bytes).isSome) ∧
       (∀ f, (none : Option Bytes) = some f →
         ∃ ft, nullCodec.parseFte f = some ft ∧
           ft.micElementCount = 0 ∧ ft.mic.take 16 = List.replicate 16 0 ∧
           ft.anonce.take 32 = List.replicate 32 0 ∧
           ft.snonce.take 32 = List.replicate 32 0))) :=
  ⟨(netdev_connect_event_non_ft_checks nullCodec ⟨true, false, c1Hs⟩
      ⟨false, some 0, some [(48, [1, 0]), (48, [1, 0])]⟩
      [(48, [1, 0]), (48, [1, 0])] rfl rfl rfl rfl rfl).1 rfl,
   (netdev_connect_event_non_ft_checks nullCodec ⟨true, false, c1Hs⟩
      ⟨false, some 0, some []⟩ [] rfl rfl rfl rfl rfl).2
     none none none rfl⟩

/-! ## netdev.c: key installation failure handling (C2) and
disconnect (C9) -/

/-- enum netdev_result. -/
inductive NetdevResult
  | ok
  | aborted
  | authenticationFailed
  | associationFailed
  | handshakeFailed
  | keySettingFailed
  deriving Repr, DecidableEq

/-- The netlink-transport actions the modelled netdev.c paths emit, in
emission order: command cancellations, DEAUTHENTICATE / SET_STATION
sends, and the route-netlink linkmode/operstate update. -/
inductive NlOp
  | cancel (id : Nat)
  | deauthenticate (reason : Nat)
  | setStation
  | linkModeOperstate (linkmode operstate : Nat)
  deriving Repr, DecidableEq

/-- The slice of struct netdev used by the key-installation callbacks,
netdev_connect_free / netdev_connect_failed and netdev_disconnect.
`nextCmdId` models the transport allocating fresh nonzero command ids;
`hasConnectCb` / `hasEventFilter` model the connect_cb / event_filter
pointers being set. -/
structure KeyNetdev where
  pairwiseNewKeyCmdId : Nat
  pairwiseSetKeyCmdId : Nat
  groupNewKeyCmdId : Nat
  groupManagementNewKeyCmdId : Nat
  connectCmdId : Nat
  disconnectCmdId : Nat
  result : NetdevResult
  connected : Bool
  operational : Bool
  hasSm : Bool
  hasConnectCb : Bool
  hasEventFilter : Bool
  nextCmdId : Nat
  deriving Repr, DecidableEq

/-- netdev_setting_keys_failed (netdev.c): cancel the four
key-installation command ids, set result to KEY_SETTING_FAILED and
send DEAUTHENTICATE; the C function always builds the deauthenticate
with MPDU_REASON_CODE_UNSPECIFIED regardless of its argument. -/
def netdev_setting_keys_failed (s : KeyNetdev) : KeyNetdev × List NlOp :=
  let id := s.nextCmdId + 1
  ({ s with pairwiseNewKeyCmdId := 0, pairwiseSetKeyCmdId := 0,
            groupNewKeyCmdId := 0, groupManagementNewKeyCmdId := 0,
            result := NetdevResult.keySettingFailed,
            disconnectCmdId := id, nextCmdId := id },
   [NlOp.cancel s.pairwiseNewKeyCmdId, NlOp.cancel s.pairwiseSetKeyCmdId,
    NlOp.cancel s.groupNewKeyCmdId, NlOp.cancel s.groupManagementNewKeyCmdId,
    NlOp.deauthenticate MPDU_REASON_CODE_UNSPECIFIED])

/-- netdev_new_pairwise_key_cb (netdev.c). -/
def netdev_new_pairwise_key_cb (err : Int) (s : KeyNetdev) : KeyNetdev × List NlOp :=
  let s := { s with pairwiseNewKeyCmdId := 0 }
  if err ≥ 0 then (s, [])
  else netdev_setting_keys_failed s

/-- netdev_set_pairwise_key_cb (netdev.c). -/
def netdev_set_pairwise_key_cb (err : Int) (s : KeyNetdev) : KeyNetdev × List NlOp :=
  let s := { s with pairwiseSetKeyCmdId := 0 }
  if err ≥ 0 then (s, [])
  else netdev_setting_keys_failed s

/-- netdev_new_group_key_cb (netdev.c): on success send SET_STATION
(authorized); on error fail key setting.  The model's transport always
accepts a send, so the send-failure branch is not reachable here. -/
def netdev_new_group_key_cb (err : Int) (s : KeyNetdev) : KeyNetdev × List NlOp :=
  let s := { s with groupNewKeyCmdId := 0 }
  if err < 0 then netdev_setting_keys_failed s
  else (s, [NlOp.setStation])

/-- netdev_new_group_management_key_cb (netdev.c). -/
def netdev_new_group_management_key_cb (err : Int) (s : KeyNetdev) :
    KeyNetdev × List NlOp :=
  let s := { s with groupManagementNewKeyCmdId := 0 }
  if err < 0 then netdev_setting_keys_failed s
  else (s, [])

/-- netdev_set_station_cb (netdev.c). -/
def netdev_set_station_cb (err : Int) (s : KeyNetdev) : KeyNetdev × List NlOp :=
  if !s.connected then (s, [])
  else if err < 0 then netdev_setting_keys_failed s
  else (s, [NlOp.linkModeOperstate 1 6])

/-- netdev_connect_free (netdev.c): tear down the connection state and
cancel whatever commands are outstanding. -/
def netdev_connect_free (s : KeyNetdev) : KeyNetdev × List NlOp :=
  let ops :=
    (if s.pairwiseNewKeyCmdId ≠ 0 then [NlOp.cancel s.pairwiseNewKeyCmdId] else []) ++
    (if s.pairwiseSetKeyCmdId ≠ 0 then [NlOp.cancel s.pairwiseSetKeyCmdId] else []) ++
    (if s.groupNewKeyCmdId ≠ 0 then [NlOp.cancel s.groupNewKeyCmdId] else []) ++
    (if s.groupManagementNewKeyCmdId ≠ 0 then
      [NlOp.cancel s.groupManagementNewKeyCmdId] else []) ++
    (if s.connectCmdId ≠ 0 then [NlOp.cancel s.connectCmdId]
     else if s.disconnectCmdId ≠ 0 then [NlOp.cancel s.disconnectCmdId] else [])
  ({ s with hasSm := false, operational := false, connected := false,
            hasConnectCb := false, hasEventFilter := false,
            result := NetdevResult.ok,
            pairwiseNewKeyCmdId := 0, pairwiseSetKeyCmdId := 0,
            groupNewKeyCmdId := 0, groupManagementNewKeyCmdId := 0,
            connectCmdId := 0,
            disconnectCmdId := if s.connectCmdId ≠ 0 then s.disconnectCmdId else 0 },
   ops)

/-- What netdev_connect_failed delivers to the upper layer: the connect
callback with the recorded result, or the DISCONNECT_BY_SME event. -/
inductive ConnectDone
  | connectCb (result : NetdevResult)
  | eventDisconnectBySme
  deriving Repr, DecidableEq

/-- netdev_connect_failed (netdev.c): also the callback of the
DEAUTHENTICATE command sent on failure paths. -/
def netdev_connect_failed (s : KeyNetdev) : KeyNetdev × List NlOp × Option ConnectDone :=
  let cb := s.hasConnectCb
  let ef := s.hasEventFilter
  let result := s.result
  let r := netdev_connect_free { s with disconnectCmdId := 0 }
  (r.1, r.2,
   if cb then some (ConnectDone.connectCb result)
   else if ef then some ConnectDone.eventDisconnectBySme else none)

/-- The five key-installation commands of the claim, in issue order. -/
inductive KeyCmdKind
  | pairwiseNewKey
  | pairwiseSetKey
  | groupNewKey
  | groupManagementNewKey
  | setStation
  deriving Repr, DecidableEq

/-- Dispatch the completion callback of a key-installation command. -/
def runKeyCmdCb : KeyCmdKind → Int → KeyNetdev → KeyNetdev × List NlOp
  | KeyCmdKind.pairwiseNewKey, err, s => netdev_new_pairwise_key_cb err s
  | KeyCmdKind.pairwiseSetKey, err, s => netdev_set_pairwise_key_cb err s
  | KeyCmdKind.groupNewKey, err, s => netdev_new_group_key_cb err s
  | KeyCmdKind.groupManagementNewKey, err, s =>
      netdev_new_group_management_key_cb err s
  | KeyCmdKind.setStation, err, s => netdev_set_station_cb err s

/-- The four stored key-installation command ids. -/
def keyCmdIds (s : KeyNetdev) : List Nat :=
  [s.pairwiseNewKeyCmdId, s.pairwiseSetKeyCmdId, s.groupNewKeyCmdId,
   s.groupManagementNewKeyCmdId]

/-- The state after the failing command's own id is cleared by its
callback (its command is completed, hence no longer outstanding); the
ids still present here are the remaining outstanding ones. -/
def zeroOwnKeyCmdId : KeyCmdKind → KeyNetdev → KeyNetdev
  | KeyCmdKind.pairwiseNewKey, s => { s with pairwiseNewKeyCmdId := 0 }
  | KeyCmdKind.pairwiseSetKey, s => { s with pairwiseSetKeyCmdId := 0 }
  | KeyCmdKind.groupNewKey, s => { s with groupNewKeyCmdId := 0 }
  | KeyCmdKind.groupManagementNewKey, s =>
      { s with groupManagementNewKeyCmdId := 0 }
  | KeyCmdKind.setStation, s => s

/-- Claim C2 (confirmed): when any of the five key-installation
commands (pairwise NEW_KEY, pairwise SET_KEY, group NEW_KEY,
group-management NEW_KEY, SET_STATION) completes with an error, the
callback cancels every remaining outstanding key-installation command,
issues a DEAUTHENTICATE with reason UNSPECIFIED, records
KeySettingFailed, and when the deauthenticate completes the connect
attempt finishes with KeySettingFailed delivered to the connect
callback. -/
theorem netdev_key_install_failure (s : KeyNetdev) (k : KeyCmdKind) (err : Int)
    (herr : err < 0) (hconn : s.connected = true) :
    NlOp.deauthenticate MPDU_REASON_CODE_UNSPECIFIED ∈ (runKeyCmdCb k err s).2 ∧
    keyCmdIds (runKeyCmdCb k err s).1 = [0, 0, 0, 0] ∧
    (runKeyCmdCb k err s).1.result = NetdevResult.keySettingFailed ∧
    (∀ id ∈ keyCmdIds (zeroOwnKeyCmdId k s),
      NlOp.cancel id ∈ (runKeyCmdCb k err s).2) ∧
    (s.hasConnectCb = true →
      (netdev_connect_failed (runKeyCmdCb k err s).1).2.2 =
        some (ConnectDone.connectCb NetdevResult.keySettingFailed)) := by
  have herr2 : ¬ err ≥ 0 := by omega
  cases k <;>
    simp [runKeyCmdCb, netdev_new_pairwise_key_cb, netdev_set_pairwise_key_cb,
      netdev_new_group_key_cb, netdev_new_group_management_key_cb,
      netdev_set_station_cb, netdev_setting_keys_failed, netdev_connect_failed,
      netdev_connect_free, keyCmdIds, zeroOwnKeyCmdId, hconn, herr, herr2]

/-- Claim C2 witness: a group NEW_KEY failure with three other
commands outstanding. -/
theorem c2_witness :
    ((-2 : Int) < 0 ∧
     ({ pairwiseNewKeyCmdId := 5, pairwiseSetKeyCmdId := 6,
        groupNewKeyCmdId := 7, groupManagementNewKeyCmdId := 8,
        connectCmdId := 0, disconnectCmdId := 0,
        result := NetdevResult.ok, connected := true, operational := false,
        hasSm := true, hasConnectCb := true, hasEventFilter := false,
        nextCmdId := 10 } : KeyNetdev).connected = true) ∧
    (NlOp.deauthenticate MPDU_REASON_CODE_UNSPECIFIED ∈
      (runKeyCmdCb KeyCmdKind.groupNewKey (-2)
        { pairwiseNewKeyCmdId := 5, pairwiseSetKeyCmdId := 6,
          groupNewKeyCmdId := 7, groupManagementNewKeyCmdId := 8,
          connectCmdId := 0, disconnectCmdId := 0,
          result := NetdevResult.ok, connected := true, operational := false,
          hasSm := true, hasConnectCb := true, hasEventFilter := false,
          nextCmdId := 10 }).2) := by
  refine ⟨⟨by decide, rfl⟩, ?_⟩
  exact (netdev_key_install_failure _ KeyCmdKind.groupNewKey (-2)
    (by decide) rfl).1

/-- The errors netdev_disconnect can return to its caller. -/
inductive DisconnectError
  | notConnected
  | inProgress
  deriving Repr, DecidableEq

/-- Result record of one netdev_disconnect call. -/
structure DisconnectResult where
  st : KeyNetdev
  ops : List NlOp
  delivered : Option ConnectDone
  err : Option DisconnectError
  deriving Repr, DecidableEq

/-- The teardown step inside netdev_disconnect: a not-yet-operational
attempt is aborted through netdev_connect_failed (result ABORTED), an
established connection goes through netdev_connect_free. -/
def netdev_disconnect_teardown (s : KeyNetdev) :
    KeyNetdev × List NlOp × Option ConnectDone :=
  if !s.operational then
    netdev_connect_failed { s with result := NetdevResult.aborted }
  else
    ((netdev_connect_free s).1, (netdev_connect_free s).2, none)

/-- netdev_disconnect (netdev.c): refuse when not connected or when a
disconnect is already outstanding; otherwise abort or tear down the
connection state and send one DEAUTHENTICATE with reason
DEAUTH_LEAVING.  The model's transport always accepts the send, so the
EIO branch is not reachable. -/
def netdev_disconnect (s : KeyNetdev) : DisconnectResult :=
  if !s.connected then ⟨s, [], none, some DisconnectError.notConnected⟩
  else if s.disconnectCmdId ≠ 0 then ⟨s, [], none, some DisconnectError.inProgress⟩
  else
    ⟨{ (netdev_disconnect_teardown s).1 with
         disconnectCmdId := (netdev_disconnect_teardown s).1.nextCmdId + 1,
         nextCmdId := (netdev_disconnect_teardown s).1.nextCmdId + 1 },
     (netdev_disconnect_teardown s).2.1 ++
       [NlOp.deauthenticate MPDU_REASON_CODE_DEAUTH_LEAVING],
     (netdev_disconnect_teardown s).2.2, none⟩

/-- Count the DEAUTHENTICATE commands in an emission list. -/
def countDeauths (ops : List NlOp) : Nat :=
  (ops.filter (fun op => match op with
    | NlOp.deauthenticate _ => true
    | _ => false)).length

/-- Helper: countDeauths distributes over append. -/
theorem countDeauths_append (a b : List NlOp) :
    countDeauths (a ++ b) = countDeauths a + countDeauths b := by
  simp [countDeauths, List.filter_append]

/-- Helper: netdev_connect_free only emits cancellations. -/
theorem countDeauths_connect_free (s : KeyNetdev) :
    countDeauths (netdev_connect_free s).2 = 0 := by
  unfold netdev_connect_free countDeauths
  simp only [List.filter_append, List.length_append]
  split <;> split <;> split <;> split <;> split <;> simp_all [List.filter]

/-- Helper: netdev_connect_failed only emits cancellations. -/
theorem countDeauths_connect_failed (s : KeyNetdev) :
    countDeauths (netdev_connect_failed s).2.1 = 0 := by
  unfold netdev_connect_failed
  simpa using countDeauths_connect_free { s with disconnectCmdId := 0 }

/-- Helper: connect teardown clears the connected flag. -/
theorem netdev_connect_free_connected (s : KeyNetdev) :
    (netdev_connect_free s).1.connected = false := rfl

/-- Helper: the failure path clears the connected flag. -/
theorem netdev_connect_failed_connected (s : KeyNetdev) :
    (netdev_connect_failed s).1.connected = false := rfl

/-- Helper: the teardown emits no DEAUTHENTICATE of its own. -/
theorem countDeauths_disconnect_teardown (s : KeyNetdev) :
    countDeauths (netdev_disconnect_teardown s).2.1 = 0 := by
  unfold netdev_disconnect_teardown
  split
  · exact countDeauths_connect_failed _
  · exact countDeauths_connect_free _

/-- Helper: the teardown clears the connected flag. -/
theorem netdev_disconnect_teardown_connected (s : KeyNetdev) :
    (netdev_disconnect_teardown s).1.connected = false := by
  unfold netdev_disconnect_teardown
  split
  · exact netdev_connect_failed_connected _
  · exact netdev_connect_free_connected _

/-- Helper: the shape of a netdev_disconnect call that passes its
guards. -/
theorem netdev_disconnect_eq (s : KeyNetdev) (hconn : s.connected = true)
    (hdis : s.disconnectCmdId = 0) :
    netdev_disconnect s =
      ⟨{ (netdev_disconnect_teardown s).1 with
           disconnectCmdId := (netdev_disconnect_teardown s).1.nextCmdId + 1,
           nextCmdId := (netdev_disconnect_teardown s).1.nextCmdId + 1 },
       (netdev_disconnect_teardown s).2.1 ++
         [NlOp.deauthenticate MPDU_REASON_CODE_DEAUTH_LEAVING],
       (netdev_disconnect_teardown s).2.2, none⟩ := by
  unfold netdev_disconnect
  rw [hconn, hdis]
  rfl

/-- Helper: a disconnect call on a torn-down (not connected) state. -/
theorem netdev_disconnect_not_connected (t : KeyNetdev)
    (ht : t.connected = false) :
    netdev_disconnect t = ⟨t, [], none, some DisconnectError.notConnected⟩ := by
  unfold netdev_disconnect
  rw [ht]
  rfl

/-- Claim C9 (confirmed): a Disconnect call while connected (and with
no disconnect outstanding) succeeds and puts exactly one
DEAUTHENTICATE with reason DEAUTH_LEAVING on the wire; a second
Disconnect call then sends no further DEAUTHENTICATE and returns an
error (NotConnected or InProgress), so the two calls together produce
exactly one DEAUTHENTICATE. -/
theorem netdev_disconnect_idempotent (s : KeyNetdev)
    (hconn : s.connected = true) (hdis : s.disconnectCmdId = 0) :
    (netdev_disconnect s).err = none ∧
    countDeauths (netdev_disconnect s).ops = 1 ∧
    NlOp.deauthenticate MPDU_REASON_CODE_DEAUTH_LEAVING ∈ (netdev_disconnect s).ops ∧
    ((netdev_disconnect (netdev_disconnect s).st).err =
        some DisconnectError.notConnected ∨
     (netdev_disconnect (netdev_disconnect s).st).err =
        some DisconnectError.inProgress) ∧
    countDeauths (netdev_disconnect (netdev_disconnect s).st).ops = 0 ∧
    countDeauths ((netdev_disconnect s).ops ++
      (netdev_disconnect (netdev_disconnect s).st).ops) = 1 := by
  rw [netdev_disconnect_eq s hconn hdis]
  have h0 := countDeauths_disconnect_teardown s
  have hc2 : ({ (netdev_disconnect_teardown s).1 with
      disconnectCmdId := (netdev_disconnect_teardown s).1.nextCmdId + 1,
      nextCmdId := (netdev_disconnect_teardown s).1.nextCmdId + 1 } :
        KeyNetdev).connected = false := netdev_disconnect_teardown_connected s
  rw [netdev_disconnect_not_connected _ hc2]
  refine ⟨rfl, ?_, by simp, Or.inl rfl, rfl, ?_⟩
  · rw [countDeauths_append, h0]
    rfl
  · rw [List.append_nil, countDeauths_append, h0]
    rfl

/-- Claim C9 witness: a connected, operational netdev. -/
theorem c9_witness :
    (netdev_disconnect
      { pairwiseNewKeyCmdId := 0, pairwiseSetKeyCmdId := 0,
        groupNewKeyCmdId := 0, groupManagementNewKeyCmdId := 0,
        connectCmdId := 0, disconnectCmdId := 0,
        result := NetdevResult.ok, connected := true, operational := true,
        hasSm := true, hasConnectCb := false, hasEventFilter := true,
        nextCmdId := 3 }).err = none :=
  (netdev_disconnect_idempotent
    { pairwiseNewKeyCmdId := 0, pairwiseSetKeyCmdId := 0,
      groupNewKeyCmdId := 0, groupManagementNewKeyCmdId := 0,
      connectCmdId := 0, disconnectCmdId := 0,
      result := NetdevResult.ok, connected := true, operational := true,
      hasSm := true, hasConnectCb := false, hasEventFilter := true,
      nextCmdId := 3 } rfl rfl).1

/-! ## netdev.c: Fast BSS Transition (C5, C6) -/

/-- The fields of struct scan_bss used on the FT path: `mde` holds the
3 data bytes of the advertised Mobility Domain element, present when
`mdePresent`. -/
structure ScanBss where
  addr : Bytes
  ssid : Bytes
  frequency : Nat
  mdePresent : Bool
  mde : Bytes
  rsne : Option Bytes
  deriving Repr, DecidableEq

/-- An information element attached to an MLME command: either built
by ie_build_rsne from an ie_rsn_info, passed through verbatim as raw
bytes, or built by ie_build_fast_bss_transition from an ie_ft_info. -/
inductive CmdIe
  | rsnInfoIe (info : RsnInfo)
  | rawIe (bytes : Bytes)
  | ftInfoIe (info : FtInfo)
  deriving Repr, DecidableEq

/-- The attributes of the AUTHENTICATE / ASSOCIATE commands built on
the FT path. -/
structure MlmeCmd where
  cmd : Nat
  frequency : Nat
  mac : Bytes
  ssid : Bytes
  authType : Option Nat
  prevBssid : Option Bytes
  ies : List CmdIe
  deriving Repr, DecidableEq

/-- struct ie_ft_info after memset 0. -/
def zeroFtInfo : FtInfo :=
  { micElementCount := 0, mic := List.replicate 16 0,
    anonce := List.replicate 32 0, snonce := List.replicate 32 0,
    r0khid := [], r1khidPresent := false, r1khid := List.replicate 6 0,
    gtk := [], gtkKeyId := 0, gtkRsc := List.replicate 8 0,
    igtk := [], igtkKeyId := 0, igtkIpn := List.replicate 6 0 }

/-- netdev_build_cmd_ft_authenticate (netdev.c): FT auth type, RSNE
rebuilt with the PMK-R0-Name as single PMKID, the MDE advertised by
the BSS passed verbatim (tag 54, length 3, the 3 advertised bytes),
FTE with R0KH-ID and SNonce set and all other fields zero. -/
def netdev_build_cmd_ft_authenticate (c : IeCodec) (bss : ScanBss)
    (hs : HandshakeState) : Option MlmeCmd :=
  let mdeIe : Bytes := IE_TYPE_MOBILITY_DOMAIN :: 3 :: bss.mde.take 3
  match hs.ownIe with
  | none =>
    some { cmd := NL80211_CMD_AUTHENTICATE, frequency := bss.frequency,
           mac := bss.addr, ssid := bss.ssid,
           authType := some NL80211_AUTHTYPE_FT, prevBssid := none,
           ies := [CmdIe.rawIe mdeIe] }
  | some own =>
    match c.parseRsne own with
    | none => none
    | some info =>
      let rsnI := { info with numPmkids := 1, pmkids := hs.pmkR0Name.take 16 }
      let ftI := { zeroFtInfo with
                   r0khid := hs.r0khid, snonce := hs.snonce.take 32 }
      some { cmd := NL80211_CMD_AUTHENTICATE, frequency := bss.frequency,
             mac := bss.addr, ssid := bss.ssid,
             authType := some NL80211_AUTHTYPE_FT, prevBssid := none,
             ies := [CmdIe.rsnInfoIe rsnI, CmdIe.rawIe mdeIe, CmdIe.ftInfoIe ftI] }

/-- The first len+2 bytes of a stored IE buffer, as the C code passes
`iov_len = ie[1] + 2` of it. -/
def ieStored (m : Bytes) : Bytes := m.take (2 + m.tail.headD 0)

/-- netdev_build_cmd_ft_reassociate (netdev.c): RSNE rebuilt with the
PMK-R1-Name as single PMKID, the stored MDE passed verbatim, FTE with
MIC element count 3, the recorded KH-IDs and nonces, and the MIC
computed by ft_calculate_fte_mic over 5 elements.  The C function is
only called with hs->mde set; an absent MDE is mapped to the error
result here. -/
def netdev_build_cmd_ft_reassociate (c : IeCodec) (hs : HandshakeState)
    (frequency : Nat) (prevBssid : Bytes) : Option MlmeCmd :=
  match hs.mde with
  | none => none
  | some m =>
    let mdeIe := ieStored m
    match hs.ownIe with
    | none =>
      some { cmd := NL80211_CMD_ASSOCIATE, frequency := frequency,
             mac := hs.aa.take 6, ssid := hs.ssid, authType := none,
             prevBssid := some prevBssid, ies := [CmdIe.rawIe mdeIe] }
    | some own =>
      match c.parseRsne own with
      | none => none
      | some info =>
        let rsnI := { info with numPmkids := 1, pmkids := hs.pmkR1Name.take 16 }
        let ftNoMic := { zeroFtInfo with
                         micElementCount := 3,
                         r0khid := hs.r0khid, r1khidPresent := true,
                         r1khid := hs.r1khid.take 6,
                         anonce := hs.anonce.take 32,
                         snonce := hs.snonce.take 32 }
        match c.calcFteMicInfo hs 5 (some rsnI) ftNoMic with
        | none => none
        | some mic =>
          some { cmd := NL80211_CMD_ASSOCIATE, frequency := frequency,
                 mac := hs.aa.take 6, ssid := hs.ssid, authType := none,
                 prevBssid := some prevBssid,
                 ies := [CmdIe.rsnInfoIe rsnI, CmdIe.rawIe mdeIe,
                         CmdIe.ftInfoIe { ftNoMic with mic := mic.take 16 }] }

/-- The slice of struct netdev used by netdev_fast_transition. -/
structure FtNetdev where
  operational : Bool
  inFt : Bool
  hs : HandshakeState
  frequency : Nat
  prevBssid : Bytes
  groupNewKeyCmdId : Nat
  groupManagementNewKeyCmdId : Nat
  deriving Repr, DecidableEq

/-- l_get_le16 on the first two bytes of a buffer. -/
def l_get_le16 (b : Bytes) : Nat := b.getD 0 0 + 256 * b.getD 1 0

/-- netdev_fast_transition (netdev.c): check the target BSS shares the
current MDID, pick a fresh SNonce (`newSnonce` models the CSPRNG
draw), build and send the FT AUTHENTICATE command, then move the
handshake to the target BSS: prev_bssid saved, authenticator address
and AP RSNE replaced, and the 3 MDE data bytes overwritten in place
with the target's (memcpy(hs->mde + 2, target_bss->mde, 3)).  `none`
models the error returns. -/
def netdev_fast_transition (c : IeCodec) (nd : FtNetdev) (bss : ScanBss)
    (newSnonce : Bytes) : Option (FtNetdev × MlmeCmd) :=
  if !nd.operational then none
  else
    match nd.hs.mde with
    | none => none
    | some m =>
      if !bss.mdePresent then none
      else if l_get_le16 (m.drop 2) ≠ l_get_le16 bss.mde then none
      else
        let hs1 := { nd.hs with snonce := newSnonce }
        match netdev_build_cmd_ft_authenticate c bss hs1 with
        | none => none
        | some cmd =>
          let hs2 := { hs1 with
                       aa := bss.addr, apIe := bss.rsne,
                       mde := some (m.take 2 ++ bss.mde.take 3 ++ m.drop 5) }
          some ({ nd with
                  hs := hs2, prevBssid := nd.hs.aa.take 6,
                  operational := false, inFt := true,
                  frequency := bss.frequency,
                  groupNewKeyCmdId := 0, groupManagementNewKeyCmdId := 0 },
                cmd)

/-- The full Mobility Domain element as the target BSS advertises it:
tag 54, length 3, the 3 stored data bytes. -/
def bssAdvertisedMde (bss : ScanBss) : Bytes :=
  IE_TYPE_MOBILITY_DOMAIN :: 3 :: bss.mde.take 3

/-- The first raw (verbatim) IE attached to an MLME command; on the FT
path this is always the MDE. -/
def cmdRawMde (cmd : MlmeCmd) : Option Bytes :=
  cmd.ies.findSome? (fun ie => match ie with
    | CmdIe.rawIe b => some b
    | _ => none)

/-- Helper: components of a successful netdev_fast_transition. -/
theorem netdev_fast_transition_some (c : IeCodec) (nd : FtNetdev) (bss : ScanBss)
    (newSnonce : Bytes) (nd2 : FtNetdev) (cmd : MlmeCmd)
    (hft : netdev_fast_transition c nd bss newSnonce = some (nd2, cmd)) :
    ∃ m, nd.hs.mde = some m ∧
      netdev_build_cmd_ft_authenticate c bss
        { nd.hs with snonce := newSnonce } = some cmd ∧
      nd2.hs = { nd.hs with
                 snonce := newSnonce, aa := bss.addr, apIe := bss.rsne,
                 mde := some (m.take 2 ++ bss.mde.take 3 ++ m.drop 5) } ∧
      nd2.frequency = bss.frequency ∧ nd2.prevBssid = nd.hs.aa.take 6 := by
  unfold netdev_fast_transition at hft
  split at hft
  · exact absurd hft (by simp)
  · split at hft
    · exact absurd hft (by simp)
    · next m hm =>
      split at hft
      · exact absurd hft (by simp)
      · split at hft
        · exact absurd hft (by simp)
        · simp only at hft
          split at hft
          · exact absurd hft (by simp)
          · next cmd0 hcmd =>
            simp only [Option.some.injEq, Prod.mk.injEq] at hft
            refine ⟨m, hm, ?_, ?_, ?_, ?_⟩
            · rw [hcmd, hft.2]
            · rw [← hft.1]
            · rw [← hft.1]
            · rw [← hft.1]

/-- Helper: the FT Authenticate command built when an RSN is in use. -/
theorem netdev_build_cmd_ft_authenticate_rsn (c : IeCodec) (bss : ScanBss)
    (hs : HandshakeState) (own : Bytes) (info : RsnInfo)
    (hown : hs.ownIe = some own) (hinfo : c.parseRsne own = some info) :
    netdev_build_cmd_ft_authenticate c bss hs =
      some { cmd := NL80211_CMD_AUTHENTICATE, frequency := bss.frequency,
             mac := bss.addr, ssid := bss.ssid,
             authType := some NL80211_AUTHTYPE_FT, prevBssid := none,
             ies := [CmdIe.rsnInfoIe
                       { info with
                         numPmkids := 1, pmkids := hs.pmkR0Name.take 16 },
                     CmdIe.rawIe (bssAdvertisedMde bss),
                     CmdIe.ftInfoIe
                       { zeroFtInfo with
                         r0khid := hs.r0khid,
                         snonce := hs.snonce.take 32 }] } := by
  unfold netdev_build_cmd_ft_authenticate
  rw [hown]
  simp only [hinfo]
  rfl

/-- Claim C5 (confirmed): for every FT transition in an RSN, the FT
Authenticate request carries an RSNE whose single PMKID is the
PMK-R0-Name, the target BSS's MDE verbatim, and an FTE whose SNonce
and R0KH-ID are set (to the fresh SNonce and the recorded R0KH-ID)
while the ANonce, MIC and MIC Element Count fields are zero. -/
theorem ft_authenticate_request_contents (c : IeCodec) (nd : FtNetdev)
    (bss : ScanBss) (newSnonce : Bytes) (nd2 : FtNetdev) (cmd : MlmeCmd)
    (own : Bytes) (hown : nd.hs.ownIe = some own)
    (hft : netdev_fast_transition c nd bss newSnonce = some (nd2, cmd)) :
    ∃ rsnI ftI, cmd.ies = [CmdIe.rsnInfoIe rsnI,
        CmdIe.rawIe (bssAdvertisedMde bss), CmdIe.ftInfoIe ftI] ∧
      rsnI.numPmkids = 1 ∧ rsnI.pmkids = nd.hs.pmkR0Name.take 16 ∧
      ftI.snonce = newSnonce.take 32 ∧ ftI.r0khid = nd.hs.r0khid ∧
      ftI.anonce = List.replicate 32 0 ∧ ftI.mic = List.replicate 16 0 ∧
      ftI.micElementCount = 0 := by
  obtain ⟨m, hm, hbuild, hhs, hfreq, hprev⟩ :=
    netdev_fast_transition_some c nd bss newSnonce nd2 cmd hft
  have hown1 : ({ nd.hs with snonce := newSnonce } : HandshakeState).ownIe =
      some own := hown
  rcases hparse : c.parseRsne own with _ | info
  · rw [netdev_build_cmd_ft_authenticate, hown1] at hbuild
    simp only [hparse] at hbuild
    exact Option.noConfusion hbuild
  · rw [netdev_build_cmd_ft_authenticate_rsn c bss _ own info hown1 hparse]
      at hbuild
    injection hbuild with hbuild
    refine ⟨{ info with
              numPmkids := 1, pmkids := nd.hs.pmkR0Name.take 16 },
            { zeroFtInfo with
              r0khid := nd.hs.r0khid, snonce := newSnonce.take 32 },
            ?_, rfl, rfl, rfl, rfl, rfl, rfl, rfl⟩
    rw [← hbuild]

/-- A codec instance for which RSNE parsing and FTE MIC computation
succeed, used by the FT witnesses. -/
def ftWitnessCodec : IeCodec :=
  { nullCodec with
    parseRsne := fun _ =>
      some { pairwiseCiphers := 16, groupCipher := 16, akmSuites := 2,
             mfpr := false, sppAMsduRequired := false, numPmkids := 0,
             pmkids := [] },
    calcFteMicInfo := fun _ _ _ _ => some (List.replicate 16 7) }

/-- A handshake state ready for an FT transition. -/
def ftWitnessHs : HandshakeState :=
  { ownIe := some [48, 2, 1, 0], apIe := none, mde := some [54, 3, 52, 18, 1],
    pmkR0Name := List.replicate 16 10, pmkR1Name := List.replicate 16 11,
    anonce := List.replicate 32 12, snonce := List.replicate 32 13,
    r0khid := [1, 2, 3], r1khid := List.replicate 6 14,
    aa := List.replicate 6 15, ssid := [78, 101, 116] }

/-- An operational netdev ready for an FT transition. -/
def ftWitnessNd : FtNetdev :=
  { operational := true, inFt := false, hs := ftWitnessHs, frequency := 2412,
    prevBssid := List.replicate 6 0, groupNewKeyCmdId := 0,
    groupManagementNewKeyCmdId := 0 }

/-- A target BSS in the same mobility domain. -/
def ftWitnessBss : ScanBss :=
  { addr := List.replicate 6 22, ssid := [78, 101, 116], frequency := 5180,
    mdePresent := true, mde := [52, 18, 1], rsne := some [48, 2, 1, 0] }

/-- Claim C5 witness: the theorem applied at a concrete FT
transition. -/
theorem c5_witness :
    ∃ nd2 cmd,
      netdev_fast_transition ftWitnessCodec ftWitnessNd ftWitnessBss
        (List.replicate 32 9) = some (nd2, cmd) ∧
      ∃ rsnI ftI, cmd.ies = [CmdIe.rsnInfoIe rsnI,
          CmdIe.rawIe (bssAdvertisedMde ftWitnessBss), CmdIe.ftInfoIe ftI] ∧
        rsnI.numPmkids = 1 ∧
        rsnI.pmkids = ftWitnessNd.hs.pmkR0Name.take 16 ∧
        ftI.snonce = (List.replicate 32 9).take 32 ∧
        ftI.r0khid = ftWitnessNd.hs.r0khid ∧
        ftI.anonce = List.replicate 32 0 ∧ ftI.mic = List.replicate 16 0 ∧
        ftI.micElementCount = 0 :=
  ⟨_, _, rfl,
   ft_authenticate_request_contents ftWitnessCodec ftWitnessNd ftWitnessBss
     (List.replicate 32 9) _ _ [48, 2, 1, 0] rfl rfl⟩

/-- Helper: the FT Authenticate command always carries the target
BSS's advertised MDE verbatim as its raw IE. -/
theorem netdev_build_cmd_ft_authenticate_mde (c : IeCodec) (bss : ScanBss)
    (hs : HandshakeState) (cmd : MlmeCmd)
    (hb : netdev_build_cmd_ft_authenticate c bss hs = some cmd) :
    cmdRawMde cmd = some (bssAdvertisedMde bss) := by
  unfold netdev_build_cmd_ft_authenticate at hb
  split at hb
  · injection hb with hb
    rw [← hb]
    rfl
  · split at hb
    · exact Option.noConfusion hb
    · injection hb with hb
      rw [← hb]
      rfl

/-- Helper: the FT Reassociate command carries the stored MDE
verbatim as its raw IE. -/
theorem netdev_build_cmd_ft_reassociate_mde (c : IeCodec) (hs : HandshakeState)
    (freq : Nat) (prev : Bytes) (reCmd : MlmeCmd) (m : Bytes)
    (hm : hs.mde = some m)
    (hre : netdev_build_cmd_ft_reassociate c hs freq prev = some reCmd) :
    cmdRawMde reCmd = some (ieStored m) := by
  unfold netdev_build_cmd_ft_reassociate at hre
  rw [hm] at hre
  simp only at hre
  split at hre
  · injection hre with hre
    rw [← hre]
    rfl
  · split at hre
    · exact Option.noConfusion hre
    · split at hre
      · exact Option.noConfusion hre
      · injection hre with hre
        rw [← hre]
        rfl

/-- Claim C6 (confirmed): for every FT transition, the MDE placed in
the FT Authenticate request is byte-identical to the MDE advertised by
the target BSS, and the MDE placed in the subsequent Reassociate
request is byte-identical to that same MDE.  The stored MDE is assumed
well-formed (tag 54, length 3, five bytes), as recorded from the
original association. -/
theorem ft_mde_echo (c : IeCodec) (nd : FtNetdev) (bss : ScanBss)
    (newSnonce : Bytes) (nd2 : FtNetdev) (cmd reCmd : MlmeCmd) (m : Bytes)
    (hm : nd.hs.mde = some m)
    (hm2 : m.take 2 = [IE_TYPE_MOBILITY_DOMAIN, 3]) (hlen : m.length = 5)
    (hft : netdev_fast_transition c nd bss newSnonce = some (nd2, cmd))
    (hre : netdev_build_cmd_ft_reassociate c nd2.hs nd2.frequency
      nd2.prevBssid = some reCmd) :
    cmdRawMde cmd = some (bssAdvertisedMde bss) ∧
    cmdRawMde reCmd = cmdRawMde cmd := by
  obtain ⟨m', hm', hbuild, hhs, hfreq, hprev⟩ :=
    netdev_fast_transition_some c nd bss newSnonce nd2 cmd hft
  have hmm : m' = m := by
    rw [hm] at hm'
    exact (Option.some.inj hm').symm
  subst hmm
  have h1 := netdev_build_cmd_ft_authenticate_mde c bss _ cmd hbuild
  have hdrop : m'.drop 5 = ([] : Bytes) := by
    rw [← hlen, List.drop_length]
  have hmde2 : nd2.hs.mde =
      some (IE_TYPE_MOBILITY_DOMAIN :: 3 :: bss.mde.take 3) := by
    rw [hhs]
    simp only [hm2, hdrop, List.append_nil]
    rfl
  have h2 := netdev_build_cmd_ft_reassociate_mde c nd2.hs nd2.frequency
    nd2.prevBssid reCmd _ hmde2 hre
  refine ⟨h1, ?_⟩
  rw [h1, h2]
  unfold ieStored bssAdvertisedMde
  simp [List.take_take]

/-- Claim C6 witness: the theorem applied at a concrete FT
transition followed by the reassociation. -/
theorem c6_witness :
    ∃ nd2 cmd reCmd,
      netdev_fast_transition ftWitnessCodec ftWitnessNd ftWitnessBss
        (List.replicate 32 9) = some (nd2, cmd) ∧
      netdev_build_cmd_ft_reassociate ftWitnessCodec nd2.hs nd2.frequency
        nd2.prevBssid = some reCmd ∧
      cmdRawMde cmd = some (bssAdvertisedMde ftWitnessBss) ∧
      cmdRawMde reCmd = cmdRawMde cmd :=
  ⟨_, _, _, rfl, rfl,
   ft_mde_echo ftWitnessCodec ftWitnessNd ftWitnessBss (List.replicate 32 9)
     _ _ _ [54, 3, 52, 18, 1] rfl rfl rfl rfl rfl⟩

/-! ## ap.c: soft-AP association FSM (C3, C4, C7, C8, C10) -/

/-- Parse result of wsc_parse_probe_request (wscutil.c), restricted to
the fields ap.c reads. -/
structure WscProbeReq where
  configMethods : Nat
  devicePasswordId : Nat
  uuidE : Bytes
  deriving Repr, DecidableEq

/-- Parse result of wsc_parse_association_request (wscutil.c). -/
structure WscAssocReq where
  version2 : Bool
  requestType : Nat
  deriving Repr, DecidableEq

/-- Uninterpreted WSC / IE codec helpers used by ap.c: implemented in
wscutil.c and ie.c which are outside the provided sources.
`extractWsc` is ie_tlv_extract_wsc_payload over the frame's TLV
sequence. -/
structure ApCodec where
  wscParseProbeRequest : Bytes → Option WscProbeReq
  wscParseAssocRequest : Bytes → Option WscAssocReq
  parseRsne : Bytes → Option RsnInfo
  extractWsc : List (Nat × Bytes) → Option Bytes

/-- struct ap_wsc_pbc_probe_record: MAC, UUID-E, timestamp (the model
keeps l_time_now microseconds as a plain natural number). -/
structure PbcRecord where
  mac : Bytes
  uuidE : Bytes
  timestamp : Nat
  deriving Repr, DecidableEq

/-- The fields of struct sta_state used on the modelled paths.
`hasHs` models the sta->hs / sta->sm pointers being live. -/
structure StaState where
  addr : Bytes
  associated : Bool
  rsna : Bool
  aid : Nat
  assocRespCmdId : Nat
  rates : Option (List Nat)
  assocIes : Option (List (Nat × Bytes))
  assocRsne : Option Bytes
  hasHs : Bool
  capability : Nat
  listenInterval : Nat
  wscUuidE : Bytes
  wscV2 : Bool
  deriving Repr, DecidableEq

/-- A freshly allocated (zeroed) station record for the given MAC. -/
def newStaState (addr : Bytes) : StaState :=
  { addr := addr, associated := false, rsna := false, aid := 0,
    assocRespCmdId := 0, rates := none, assocIes := none, assocRsne := none,
    hasHs := false, capability := 0, listenInterval := 0,
    wscUuidE := List.replicate 16 0, wscV2 := false }

/-- The fields of struct ap_config used on the modelled paths. -/
structure ApConfig where
  ssid : Bytes
  authorizedMacs : List Bytes
  deriving Repr, DecidableEq

/-- The fields of struct ap_state used on the modelled paths.
`wscPbcTimeout` models the wsc_pbc_timeout timer being armed (active
PBC mode); `addr` is netdev_get_address of the AP's netdev. -/
structure ApState where
  addr : Bytes
  config : ApConfig
  ciphers : Nat
  rates : List Nat
  wscPbcProbes : List PbcRecord
  wscPbcTimeout : Bool
  wscDpid : Nat
  lastAid : Nat
  staStates : List StaState
  deriving Repr, DecidableEq

/-- Events emitted to the AP's owner through ap->ops->handle_event. -/
inductive ApEvent
  | pbcModeExit
  | registrationStart (mac : Bytes)
  | stationRemoved (mac : Bytes)
  deriving Repr, DecidableEq

/-- The externally visible actions of the modelled ap.c paths, in
emission order. -/
inductive ApEffect
  | updateBeacon
  | emitEvent (ev : ApEvent)
  | sendAssocResp (dest : Bytes) (status : Nat) (aid : Nat)
  | setStationUnauthorized (mac : Bytes)
  | delKey (mac : Bytes)
  | handshakeFail (mac : Bytes) (reason : Nat)
  | newStation (mac : Bytes)
  | setStationAssociated (mac : Bytes)
  deriving Repr, DecidableEq

/-! ### ap.c: authentication (C8) -/

/-- The fields of an Authentication frame that ap_auth_cb reads. -/
structure AuthFrame where
  addr1 : Bytes
  addr2 : Bytes
  addr3 : Bytes
  algorithm : Nat
  transactionSequence : Nat
  deriving Repr, DecidableEq

/-- ap_auth_reply (ap.c): the reply always carries transaction
sequence 2 and the given status code. -/
structure AuthReply where
  sequence : Nat
  status : Nat
  deriving Repr, DecidableEq

/-- ap_auth_cb (ap.c): drop frames not addressed to this BSSID; refuse
(status UNSPECIFIED) senders missing from a configured allow-list,
non-Open-System algorithms and transaction sequences other than 1;
otherwise create the Station if it does not exist and reply with
sequence 2, status 0. -/
def ap_auth_cb (ap : ApState) (f : AuthFrame) : ApState × Option AuthReply :=
  if f.addr1 ≠ ap.addr ∨ f.addr3 ≠ ap.addr then (ap, none)
  else if ap.config.authorizedMacs ≠ [] ∧
      ¬ f.addr2 ∈ ap.config.authorizedMacs then
    (ap, some ⟨2, MMPDU_REASON_CODE_UNSPECIFIED⟩)
  else if f.algorithm ≠ MMPDU_AUTH_ALGO_OPEN_SYSTEM then
    (ap, some ⟨2, MMPDU_REASON_CODE_UNSPECIFIED⟩)
  else if f.transactionSequence ≠ 1 then
    (ap, some ⟨2, MMPDU_REASON_CODE_UNSPECIFIED⟩)
  else if (ap.staStates.find? (fun s => s.addr = f.addr2)).isSome then
    (ap, some ⟨2, 0⟩)
  else
    ({ ap with staStates := ap.staStates ++ [newStaState f.addr2] },
     some ⟨2, 0⟩)

/-- Claim C8 (confirmed): for every Authentication frame addressed to
the AP: a sender missing from a configured allow-list is answered with
status UNSPECIFIED and no Station record is created; a non-Open-System
algorithm or a transaction sequence other than 1 is likewise answered
with status UNSPECIFIED with no state change; otherwise the reply
carries sequence 2 and status 0 and a Station record is created if,
and only if, none exists for that MAC. -/
theorem ap_auth_cb_behavior (ap : ApState) (f : AuthFrame)
    (h1 : f.addr1 = ap.addr) (h3 : f.addr3 = ap.addr) :
    ((ap.config.authorizedMacs ≠ [] ∧ ¬ f.addr2 ∈ ap.config.authorizedMacs) →
      ap_auth_cb ap f = (ap, some ⟨2, MMPDU_REASON_CODE_UNSPECIFIED⟩)) ∧
    (f.algorithm ≠ MMPDU_AUTH_ALGO_OPEN_SYSTEM →
      ap_auth_cb ap f = (ap, some ⟨2, MMPDU_REASON_CODE_UNSPECIFIED⟩)) ∧
    (f.transactionSequence ≠ 1 →
      ap_auth_cb ap f = (ap, some ⟨2, MMPDU_REASON_CODE_UNSPECIFIED⟩)) ∧
    ((ap.config.authorizedMacs = [] ∨ f.addr2 ∈ ap.config.authorizedMacs) →
      f.algorithm = MMPDU_AUTH_ALGO_OPEN_SYSTEM →
      f.transactionSequence = 1 →
      (ap_auth_cb ap f).2 = some ⟨2, 0⟩ ∧
      ((ap.staStates.find? (fun s => s.addr = f.addr2)).isSome →
        (ap_auth_cb ap f).1 = ap) ∧
      ((ap.staStates.find? (fun s => s.addr = f.addr2)).isNone →
        (ap_auth_cb ap f).1.staStates =
          ap.staStates ++ [newStaState f.addr2])) := by
  unfold ap_auth_cb
  rw [h1, h3]
  simp only [ne_eq, not_true_eq_false, false_or, if_false, or_self, ite_false]
  refine ⟨?_, ?_, ?_, ?_⟩
  · intro hdeny
    rw [if_pos hdeny]
  · intro halg
    by_cases hdeny : ap.config.authorizedMacs ≠ [] ∧
        ¬ f.addr2 ∈ ap.config.authorizedMacs
    · rw [if_pos hdeny]
    · rw [if_neg hdeny, if_pos halg]
  · intro hseq
    by_cases hdeny : ap.config.authorizedMacs ≠ [] ∧
        ¬ f.addr2 ∈ ap.config.authorizedMacs
    · rw [if_pos hdeny]
    · rw [if_neg hdeny]
      by_cases halg : f.algorithm ≠ MMPDU_AUTH_ALGO_OPEN_SYSTEM
      · rw [if_pos halg]
      · rw [if_neg halg, if_pos hseq]
  · intro hallow halg hseq
    have hdeny : ¬ (ap.config.authorizedMacs ≠ [] ∧
        ¬ f.addr2 ∈ ap.config.authorizedMacs) := by
      rcases hallow with h | h
      · simp [h]
      · simp [h]
    rw [if_neg hdeny, if_neg (by simp [halg]), if_neg (by simp [hseq])]
    by_cases hfound : (ap.staStates.find? (fun s => s.addr = f.addr2)).isSome
    · rw [if_pos hfound]
      refine ⟨rfl, fun _ => rfl, fun habs => ?_⟩
      rw [Option.isNone_iff_eq_none] at habs
      rw [habs] at hfound
      exact absurd hfound (by simp)
    · rw [if_neg hfound]
      exact ⟨rfl, fun h => absurd h hfound, fun _ => rfl⟩

/-- Claim C8 witness: the allow-list scenario with a denied MAC. -/
theorem c8_witness :
    (([2, 0, 0, 0, 0, 2] : Bytes) = [9, 9, 9, 9, 9, 9] ∨ True) ∧
    ap_auth_cb
      { addr := [9, 9, 9, 9, 9, 9],
        config := { ssid := [78, 101, 116],
                    authorizedMacs := [[2, 0, 0, 0, 0, 1]] },
        ciphers := 16, rates := [2], wscPbcProbes := [],
        wscPbcTimeout := false, wscDpid := 0, lastAid := 0, staStates := [] }
      { addr1 := [9, 9, 9, 9, 9, 9], addr2 := [2, 0, 0, 0, 0, 2],
        addr3 := [9, 9, 9, 9, 9, 9], algorithm := 0,
        transactionSequence := 1 } =
      ({ addr := [9, 9, 9, 9, 9, 9],
         config := { ssid := [78, 101, 116],
                     authorizedMacs := [[2, 0, 0, 0, 0, 1]] },
         ciphers := 16, rates := [2], wscPbcProbes := [],
         wscPbcTimeout := false, wscDpid := 0, lastAid := 0, staStates := [] },
       some ⟨2, MMPDU_REASON_CODE_UNSPECIFIED⟩) := by
  refine ⟨Or.inr trivial, ?_⟩
  exact (ap_auth_cb_behavior _ _ rfl rfl).1 (by decide)

/-! ### ap.c: WSC push-button session overlap (C3) -/

def AP_WSC_PBC_MONITOR_TIME : Nat := 120
def MMPDU_REASON_CODE_DISASSOC_AP_BUSY : Nat := 5

/-- ap_wsc_exit_pbc (ap.c): when active PBC mode is on, remove the PBC
timeout, clear the device password id, rebuild the beacon and emit the
PBC_MODE_EXIT event. -/
def ap_wsc_exit_pbc (ap : ApState) : ApState × List ApEffect :=
  if !ap.wscPbcTimeout then (ap, [])
  else ({ ap with wscPbcTimeout := false, wscDpid := 0 },
        [ApEffect.updateBeacon, ApEffect.emitEvent ApEvent.pbcModeExit])

/-- The expiry cutoff `now - AP_WSC_PBC_MONITOR_TIME * 1000000` with
the uint64 wraparound of the C subtraction made explicit. -/
def pbcMinTime (now : Nat) : Nat :=
  (now + 2 ^ 64 - AP_WSC_PBC_MONITOR_TIME * 1000000) % 2 ^ 64

/-- Whether the lowest bit of a natural number is set, by structural
recursion so that it computes by iota reduction alone. -/
def bitOdd : Nat → Bool
  | 0 => false
  | 1 => true
  | k + 2 => bitOdd k

/-- Floor division by two, by structural recursion. -/
def bitHalf : Nat → Nat
  | 0 => 0
  | 1 => 0
  | k + 2 => bitHalf k + 1

/-- Bitwise AND computed bit by bit with explicit fuel, stopping once
either operand is exhausted. -/
def natAndAux : Nat → Nat → Nat → Nat
  | 0, _, _ => 0
  | fuel + 1, a, b =>
    if a = 0 ∨ b = 0 then 0
    else
      (if bitOdd a && bitOdd b then 1 else 0) +
        2 * natAndAux fuel (bitHalf a) (bitHalf b)

/-- Bitwise AND of two naturals (the C `&`); 64 bits of fuel cover
every machine integer handled by the embedded code. -/
def natAnd (a b : Nat) : Nat := natAndAux 64 a b

/-- ap_process_wsc_probe_req (ap.c): ignore requests without the
push-button config method or device password id; expire stale records
and previous records from the same enrollee; record the new probe; on
seeing more than one PBC enrollee within the monitor time, exit active
PBC mode and interrupt the PBC handshake of the enrollee that matched
the (single) prior record. -/
def ap_process_wsc_probe_req (cdc : ApCodec) (ap : ApState) (fromAddr : Bytes)
    (wscData : Bytes) (now : Nat) : ApState × List ApEffect :=
  match cdc.wscParseProbeRequest wscData with
  | none => (ap, [])
  | some req =>
    if natAnd req.configMethods WSC_CONFIGURATION_METHOD_PUSH_BUTTON = 0 then
      (ap, [])
    else if req.devicePasswordId ≠ WSC_DEVICE_PASSWORD_ID_PUSH_BUTTON then
      (ap, [])
    else
      let firstStaAddr := match ap.wscPbcProbes.head? with
        | some r => r.mac
        | none => List.replicate 6 0
      let minTime := pbcMinTime now
      let probes := ap.wscPbcProbes.filter
        (fun r => decide (minTime < r.timestamp) && decide (r.mac ≠ fromAddr))
      let empty := probes.isEmpty
      let ap1 := { ap with
        wscPbcProbes := probes ++ [⟨fromAddr, req.uuidE.take 16, now⟩] }
      if empty then (ap1, [])
      else
        let r2 := ap_wsc_exit_pbc ap1
        let isVictim := fun (sta : StaState) =>
          sta.associated && sta.assocRsne.isNone &&
          decide (sta.addr = firstStaAddr) && decide (sta.addr ≠ fromAddr)
        let victimEffects := (r2.1.staStates.filter isVictim).foldr
          (fun sta acc =>
            (if sta.hasHs then
              [ApEffect.handshakeFail sta.addr
                 MMPDU_REASON_CODE_DISASSOC_AP_BUSY]
             else []) ++ acc) []
        ({ r2.1 with
           staStates := r2.1.staStates.filter (fun sta => !(isVictim sta)) },
         r2.2 ++ victimEffects)

/-- The WSC sub-elements of the Probe Response that depend on PBC
mode (struct wsc_probe_response as filled by ap_write_wsc_ie). -/
structure WscProbeResponseIe where
  selectedRegistrar : Bool
  devicePasswordId : Nat
  selectedRegConfigMethods : Nat
  deriving Repr, DecidableEq

/-- ap_write_wsc_ie (ap.c), Probe Response case: process the client's
Probe Request WSC IE first — which may exit active PBC mode — and then
build the Probe Response WSC IE from the resulting state. -/
def ap_write_wsc_ie_probe_response (cdc : ApCodec) (ap : ApState)
    (fromAddr : Bytes) (reqWscData : Option Bytes) (now : Nat) :
    ApState × List ApEffect × WscProbeResponseIe :=
  let r := match reqWscData with
    | some d => ap_process_wsc_probe_req cdc ap fromAddr d now
    | none => (ap, [])
  let pr : WscProbeResponseIe :=
    if r.1.wscPbcTimeout then
      { selectedRegistrar := true, devicePasswordId := r.1.wscDpid,
        selectedRegConfigMethods := WSC_CONFIGURATION_METHOD_PUSH_BUTTON }
    else
      { selectedRegistrar := false, devicePasswordId := 0,
        selectedRegConfigMethods := 0 }
  (r.1, r.2, pr)

/-- Claim C3 (confirmed): with active PBC mode on and one PBC probe
record from mac1 within the 120-second monitor window, a PBC probe
request from a different mac2 makes the AP exit active PBC mode —
clearing the timeout and device password id, updating the beacon and
emitting PbcModeExit — before the probe response to that second
request is built: the response it returns no longer advertises a
selected registrar or device password id. -/
theorem ap_pbc_session_overlap (cdc : ApCodec) (ap : ApState)
    (mac1 mac2 uuid1 : Bytes) (t1 now : Nat) (d : Bytes) (req : WscProbeReq)
    (hactive : ap.wscPbcTimeout = true)
    (hprobes : ap.wscPbcProbes = [⟨mac1, uuid1, t1⟩])
    (hwin : pbcMinTime now < t1)
    (hmac : mac1 ≠ mac2)
    (hreq : cdc.wscParseProbeRequest d = some req)
    (hpb : natAnd req.configMethods WSC_CONFIGURATION_METHOD_PUSH_BUTTON ≠ 0)
    (hdpid : req.devicePasswordId = WSC_DEVICE_PASSWORD_ID_PUSH_BUTTON) :
    (ap_write_wsc_ie_probe_response cdc ap mac2 (some d) now).1.wscPbcTimeout
        = false ∧
    (ap_write_wsc_ie_probe_response cdc ap mac2 (some d) now).1.wscDpid = 0 ∧
    ApEffect.updateBeacon ∈
      (ap_write_wsc_ie_probe_response cdc ap mac2 (some d) now).2.1 ∧
    ApEffect.emitEvent ApEvent.pbcModeExit ∈
      (ap_write_wsc_ie_probe_response cdc ap mac2 (some d) now).2.1 ∧
    (ap_write_wsc_ie_probe_response cdc ap mac2 (some d) now).2.2 =
      { selectedRegistrar := false, devicePasswordId := 0,
        selectedRegConfigMethods := 0 } := by
  have hb1 : decide (pbcMinTime now < t1) = true := decide_eq_true hwin
  have hb2 : decide (mac1 ≠ mac2) = true := decide_eq_true hmac
  unfold ap_write_wsc_ie_probe_response ap_process_wsc_probe_req ap_wsc_exit_pbc
  simp only [hreq, hprobes, hactive]
  rw [if_neg hpb, if_neg (by simp [hdpid])]
  simp [List.filter_cons, hb1, hb2, hmac]

/-- A codec whose WSC probe-request parser yields a push-button
request, used by the C3 witness. -/
def c3Codec : ApCodec :=
  { wscParseProbeRequest := fun _ =>
      some { configMethods := 128, devicePasswordId := 4,
             uuidE := List.replicate 16 1 },
    wscParseAssocRequest := fun _ => none,
    parseRsne := fun _ => none,
    extractWsc := fun _ => none }

/-- An AP in active PBC mode holding one fresh PBC probe record. -/
def c3Ap : ApState :=
  { addr := [9, 9, 9, 9, 9, 9],
    config := { ssid := [78, 101, 116], authorizedMacs := [] },
    ciphers := 16, rates := [2],
    wscPbcProbes := [⟨[2, 17, 34, 51, 68, 85], List.replicate 16 2,
                      150000000⟩],
    wscPbcTimeout := true, wscDpid := 4, lastAid := 0, staStates := [] }

/-- Claim C3 witness: the theorem applied at a concrete overlapping
pair of PBC probe requests. -/
theorem c3_witness :
    (ap_write_wsc_ie_probe_response c3Codec c3Ap [2, 170, 187, 204, 221, 238]
        (some [1]) 150000500).1.wscPbcTimeout = false ∧
    (ap_write_wsc_ie_probe_response c3Codec c3Ap [2, 170, 187, 204, 221, 238]
        (some [1]) 150000500).1.wscDpid = 0 ∧
    ApEffect.updateBeacon ∈
      (ap_write_wsc_ie_probe_response c3Codec c3Ap [2, 170, 187, 204, 221, 238]
        (some [1]) 150000500).2.1 ∧
    ApEffect.emitEvent ApEvent.pbcModeExit ∈
      (ap_write_wsc_ie_probe_response c3Codec c3Ap [2, 170, 187, 204, 221, 238]
        (some [1]) 150000500).2.1 ∧
    (ap_write_wsc_ie_probe_response c3Codec c3Ap [2, 170, 187, 204, 221, 238]
        (some [1]) 150000500).2.2 =
      { selectedRegistrar := false, devicePasswordId := 0,
        selectedRegConfigMethods := 0 } :=
  ap_pbc_session_overlap c3Codec c3Ap [2, 17, 34, 51, 68, 85]
    [2, 170, 187, 204, 221, 238] (List.replicate 16 2) 150000000 150000500 [1]
    { configMethods := 128, devicePasswordId := 4,
      uuidE := List.replicate 16 1 }
    rfl rfl (by decide) (by decide) rfl (by decide) rfl

/-! ### ap.c: (re)association handling (C4, C7, C10) -/

/-- __builtin_popcount, via fuel-bounded binary expansion (the fuel
`n` always suffices since a number has at most `n` binary digits). -/
def popcountAux : Nat → Nat → Nat
  | 0, _ => 0
  | fuel + 1, n => if n = 0 then 0 else n % 2 + popcountAux fuel (n / 2)

def popcount (n : Nat) : Nat := popcountAux n n

/-- ap_parse_supported_rates (ap.c) for one SUPPORTED_RATES or
EXTENDED_SUPPORTED_RATES element: an empty SUPPORTED_RATES element is
-EINVAL (`none`); otherwise each rate (basic-rate bit masked off, the
0xff HT marker skipped) is added to the set, allocated on first
use. -/
def ap_parse_supported_rates (tag : Nat) (d : Bytes)
    (set : Option (List Nat)) : Option (List Nat) :=
  if tag = IE_TYPE_SUPPORTED_RATES ∧ d.length = 0 then none
  else some (set.getD [] ++ (d.filter (fun r => r ≠ 255)).map (fun r => r % 128))

/-- l_uintset_find_min on the modelled rate set; ell returns max + 1
(the set holds rates 0..108, so 109) when the set is empty. -/
def l_uintset_find_min (s : List Nat) : Nat :=
  match s with
  | [] => 109
  | x :: xs => xs.foldl Nat.min x

/-- ap_common_rates (ap.c): the AP's lowest rate is a Basic Rate so it
must be supported by the client. -/
def ap_common_rates (apRates staRates : List Nat) : Bool :=
  staRates.contains (l_uintset_find_min apRates)

/-- The IE scan loop of ap_assoc_reassoc: record the SSID, accumulate
supported rates, and — unless a WSC IE is present in the frame, in
which case the RSN element is skipped unparsed — parse the RSNE; a
malformed rates or RSN element aborts with INVALID_IE (`none`). -/
def apAssocParseIes (cdc : ApCodec) (wscPresent : Bool) :
    List (Nat × Bytes) → Option Bytes → Option (List Nat) →
    Option (Bytes × RsnInfo) →
    Option (Option Bytes × Option (List Nat) × Option (Bytes × RsnInfo))
  | [], ssid, rates, rsn => some (ssid, rates, rsn)
  | (t, d) :: rest, ssid, rates, rsn =>
    if t = IE_TYPE_SSID then
      apAssocParseIes cdc wscPresent rest (some d) rates rsn
    else if t = IE_TYPE_SUPPORTED_RATES ∨
        t = IE_TYPE_EXTENDED_SUPPORTED_RATES then
      match ap_parse_supported_rates t d rates with
      | none => none
      | some rates2 => apAssocParseIes cdc wscPresent rest ssid (some rates2) rsn
    else if t = IE_TYPE_RSN then
      if wscPresent then apAssocParseIes cdc wscPresent rest ssid rates rsn
      else
        match cdc.parseRsne (ieBytes t d) with
        | none => none
        | some info =>
          apAssocParseIes cdc wscPresent rest ssid rates
            (some (ieBytes t d, info))
    else apAssocParseIes cdc wscPresent rest ssid rates rsn

/-- How ap_assoc_reassoc ends: early return (response still in
flight), an error response with the given status, or a success
response. -/
inductive AssocOutcome
  | ignored
  | rejected (status : Nat)
  | accepted
  deriving Repr, DecidableEq

/-- The state-drop step shared by all ap_assoc_reassoc paths
(802.11-2016 11.3.5.3 j): drop the RSNA of an RSNA-established
station, stop the handshake of a merely associated one. -/
def apAssocDropRsna (sta : StaState) : StaState × List ApEffect :=
  if sta.rsna then
    ({ sta with rsna := false, hasHs := false },
     [ApEffect.setStationUnauthorized sta.addr, ApEffect.delKey sta.addr,
      ApEffect.emitEvent (ApEvent.stationRemoved sta.addr)])
  else if sta.associated then ({ sta with hasHs := false }, [])
  else (sta, [])

/-- The unsupported / bad_frame epilogue of ap_assoc_reassoc: drop
state and send the error (Re)Association Response. -/
def apAssocReject (ap : ApState) (sta : StaState) (status : Nat) :
    ApState × StaState × List ApEffect × AssocOutcome :=
  (ap, (apAssocDropRsna sta).1,
   (apAssocDropRsna sta).2 ++
     [ApEffect.sendAssocResp sta.addr status (apAssocDropRsna sta).1.aid],
   AssocOutcome.rejected status)

/-- The success epilogue of ap_assoc_reassoc: drop old state, assign
AID = ++last_aid (uint16) to a not-yet-associated station, record the
frame's rates and IEs (the RSNE pointer into them when present) and
send the success response.  `preEffects` are the WSC-path effects
emitted just before this block. -/
def apAssocAccept (ap : ApState) (sta : StaState)
    (capability listenInterval : Nat) (staRates : List Nat)
    (ies : List (Nat × Bytes)) (rsn : Option Bytes)
    (preEffects : List ApEffect) :
    ApState × StaState × List ApEffect × AssocOutcome :=
  let sta1 := (apAssocDropRsna sta).1
  let newAid := (ap.lastAid + 1) % 65536
  let ap2 := if !sta1.associated then { ap with lastAid := newAid } else ap
  let sta2 := if !sta1.associated then { sta1 with aid := newAid } else sta1
  let sta3 := { sta2 with
                capability := capability, listenInterval := listenInterval,
                rates := some staRates,
                assocIes := if rsn.isSome then some ies else none,
                assocRsne := rsn,
                assocRespCmdId := 1 }
  (ap2, sta3,
   preEffects ++ (apAssocDropRsna sta).2 ++
     [ApEffect.sendAssocResp sta.addr 0 sta3.aid],
   AssocOutcome.accepted)

/-- ap_assoc_reassoc (ap.c). -/
def ap_assoc_reassoc (cdc : ApCodec) (ap : ApState) (sta : StaState)
    (reassoc : Bool) (capability listenInterval : Nat)
    (ies : List (Nat × Bytes)) :
    ApState × StaState × List ApEffect × AssocOutcome :=
  if sta.assocRespCmdId ≠ 0 then (ap, sta, [], AssocOutcome.ignored)
  else if reassoc ∧ ¬ sta.associated then
    apAssocReject ap sta MMPDU_REASON_CODE_CLASS3_FRAME_FROM_NONASSOC_STA
  else
    let wscData := cdc.extractWsc ies
    match apAssocParseIes cdc wscData.isSome ies none none none with
    | none => apAssocReject ap sta MMPDU_REASON_CODE_INVALID_IE
    | some (ssid, rates, rsn) =>
      if rates.isNone ∨ ssid.isNone ∨ (wscData.isNone ∧ rsn.isNone) ∨
          ssid ≠ some ap.config.ssid then
        apAssocReject ap sta MMPDU_REASON_CODE_INVALID_IE
      else if !(ap_common_rates ap.rates (rates.getD [])) then
        apAssocReject ap sta MMPDU_REASON_CODE_UNSPECIFIED
      else
        match rsn with
        | none =>
          match cdc.wscParseAssocRequest (wscData.getD []) with
          | none => apAssocReject ap sta MMPDU_REASON_CODE_INVALID_IE
          | some wscReq =>
            if wscReq.requestType ≠ WSC_REQUEST_TYPE_ENROLLEE_OPEN_8021X then
              apAssocReject ap sta MMPDU_REASON_CODE_INVALID_IE
            else if !ap.wscPbcTimeout then
              apAssocReject ap sta MMPDU_REASON_CODE_UNSPECIFIED
            else if ap.wscPbcProbes.isEmpty then
              apAssocReject ap sta MMPDU_REASON_CODE_UNSPECIFIED
            else
              match ap.wscPbcProbes.head? with
              | none => apAssocReject ap sta MMPDU_REASON_CODE_UNSPECIFIED
              | some record =>
                if record.mac ≠ sta.addr then
                  apAssocReject ap sta MMPDU_REASON_CODE_UNSPECIFIED
                else
                  apAssocAccept (ap_wsc_exit_pbc ap).1
                    { sta with wscUuidE := record.uuidE.take 16,
                               wscV2 := wscReq.version2 }
                    capability listenInterval (rates.getD []) ies none
                    (ApEffect.emitEvent (ApEvent.registrationStart sta.addr) ::
                      (ap_wsc_exit_pbc ap).2)
        | some (rsnBytes, info) =>
          if info.mfpr ∧ info.sppAMsduRequired then
            apAssocReject ap sta MMPDU_REASON_CODE_UNSPECIFIED
          else if popcount info.pairwiseCiphers ≠ 1 ∨
              natAnd info.pairwiseCiphers ap.ciphers = 0 then
            apAssocReject ap sta MMPDU_REASON_CODE_INVALID_PAIRWISE_CIPHER
          else if info.akmSuites ≠ IE_RSN_AKM_SUITE_PSK then
            apAssocReject ap sta MMPDU_REASON_CODE_INVALID_AKMP
          else
            apAssocAccept ap sta capability listenInterval
              (rates.getD []) ies (some rsnBytes) []

/-- Helper: the reject epilogue's outcome. -/
theorem apAssocReject_outcome (ap : ApState) (sta : StaState) (status : Nat) :
    (apAssocReject ap sta status).2.2.2 = AssocOutcome.rejected status := rfl

/-- Helper: the accept epilogue's outcome. -/
theorem apAssocAccept_outcome (ap : ApState) (sta : StaState)
    (capability listenInterval : Nat) (staRates : List Nat)
    (ies : List (Nat × Bytes)) (rsn : Option Bytes) (pre : List ApEffect) :
    (apAssocAccept ap sta capability listenInterval staRates ies rsn
      pre).2.2.2 = AssocOutcome.accepted := rfl

/-- A codec whose RSNE parser always yields a CCMP/PSK ie_rsn_info,
shared by the association witnesses and counterexamples. -/
def pskCodec : ApCodec :=
  { wscParseProbeRequest := fun _ => none,
    wscParseAssocRequest := fun _ => none,
    parseRsne := fun _ =>
      some { pairwiseCiphers := 16, groupCipher := 16, akmSuites := 2,
             mfpr := false, sppAMsduRequired := false, numPmkids := 0,
             pmkids := [] },
    extractWsc := fun _ => none }

/-- An AP configured with SSID "Net", CCMP, rate 1 Mb/s. -/
def pskAp : ApState :=
  { addr := [9, 9, 9, 9, 9, 9],
    config := { ssid := [78, 101, 116], authorizedMacs := [] },
    ciphers := 16, rates := [2], wscPbcProbes := [], wscPbcTimeout := false,
    wscDpid := 0, lastAid := 0, staStates := [] }

/-- Claim C7 counterexample: an association request with the right
SSID, a valid CCMP/PSK RSNE, but no rate in common with the AP is
rejected with reason UNSPECIFIED, not INVALID_IE as the claim states
for a mismatching rates element. -/
theorem c7_counterexample :
    (ap_assoc_reassoc pskCodec pskAp (newStaState [2, 0, 0, 0, 0, 7]) false
        0 0 [(0, [78, 101, 116]), (1, [132]), (48, [1, 0])]).2.2.2 =
      AssocOutcome.rejected MMPDU_REASON_CODE_UNSPECIFIED ∧
    MMPDU_REASON_CODE_UNSPECIFIED ≠ MMPDU_REASON_CODE_INVALID_IE :=
  ⟨rfl, by decide⟩

/-- Claim C7 (amended): for every (re)association request whose frame
carries no WSC IE, with no response outstanding: a reassociation from
a station that is not currently associated is rejected with
CLASS3_FRAME_FROM_NONASSOC_STA; otherwise a failed IE parse or
a missing SSID / rates / RSNE or a mismatching SSID yields INVALID_IE;
the absence of a common rate yields UNSPECIFIED; then, for the parsed
RSNE, both MFP-required and SPP-A-MSDU-required set yields
UNSPECIFIED, a pairwise-cipher bitmap without population count exactly
1 intersecting the AP's offered ciphers yields
INVALID_PAIRWISE_CIPHER, an AKM other than exactly PSK yields
INVALID_AKMP, and otherwise the request is accepted; the checks apply
in that order. -/
theorem ap_assoc_rsn_validation (cdc : ApCodec) (ap : ApState)
    (sta : StaState) (reassoc : Bool) (capability listenInterval : Nat)
    (ies : List (Nat × Bytes))
    (hcmd : sta.assocRespCmdId = 0)
    (hwsc : cdc.extractWsc ies = none) :
    (ap_assoc_reassoc cdc ap sta reassoc capability listenInterval
        ies).2.2.2 =
      (if reassoc = true ∧ sta.associated = false then
        AssocOutcome.rejected
          MMPDU_REASON_CODE_CLASS3_FRAME_FROM_NONASSOC_STA
       else
       match apAssocParseIes cdc false ies none none none with
       | none => AssocOutcome.rejected MMPDU_REASON_CODE_INVALID_IE
       | some (ssidO, ratesO, rsnO) =>
         if ratesO.isNone ∨ ssidO.isNone ∨ rsnO.isNone ∨
             ssidO ≠ some ap.config.ssid then
           AssocOutcome.rejected MMPDU_REASON_CODE_INVALID_IE
         else if !(ap_common_rates ap.rates (ratesO.getD [])) then
           AssocOutcome.rejected MMPDU_REASON_CODE_UNSPECIFIED
         else
           match rsnO with
           | none => AssocOutcome.rejected MMPDU_REASON_CODE_INVALID_IE
           | some (_, info) =>
             if info.mfpr ∧ info.sppAMsduRequired then
               AssocOutcome.rejected MMPDU_REASON_CODE_UNSPECIFIED
             else if popcount info.pairwiseCiphers ≠ 1 ∨
                 natAnd info.pairwiseCiphers ap.ciphers = 0 then
               AssocOutcome.rejected MMPDU_REASON_CODE_INVALID_PAIRWISE_CIPHER
             else if info.akmSuites ≠ IE_RSN_AKM_SUITE_PSK then
               AssocOutcome.rejected MMPDU_REASON_CODE_INVALID_AKMP
             else AssocOutcome.accepted) := by
  unfold ap_assoc_reassoc
  rw [if_neg (by simp [hcmd])]
  by_cases h0 : reassoc = true ∧ sta.associated = false
  · have hL : reassoc = true ∧ ¬ sta.associated = true :=
      ⟨h0.1, by simp [h0.2]⟩
    rw [if_pos hL, if_pos h0]
    exact apAssocReject_outcome _ _ _
  · have hL : ¬ (reassoc = true ∧ ¬ sta.associated = true) := by
      intro hc
      exact h0 ⟨hc.1, by simpa using hc.2⟩
    rw [if_neg hL, if_neg h0, hwsc]
    simp only [Option.isSome_none, Option.isNone_none, true_and]
    cases hp : apAssocParseIes cdc false ies none none none with
    | none => rfl
    | some triple =>
      obtain ⟨ssidO, ratesO, rsnO⟩ := triple
      dsimp only
      by_cases h1 : ratesO.isNone = true ∨ ssidO.isNone = true ∨
          rsnO.isNone = true ∨ ssidO ≠ some ap.config.ssid
      · rw [if_pos h1, if_pos h1]
        exact apAssocReject_outcome ap sta MMPDU_REASON_CODE_INVALID_IE
      · rw [if_neg h1, if_neg h1]
        by_cases h2 : ap_common_rates ap.rates (ratesO.getD []) = true
        · rw [if_neg (by simp [h2]), if_neg (by simp [h2])]
          cases rsnO with
          | none => exact absurd (by simp) h1
          | some rp =>
            obtain ⟨rsnB, info⟩ := rp
            dsimp only
            by_cases h3 : info.mfpr = true ∧ info.sppAMsduRequired = true
            · rw [if_pos h3, if_pos h3]
              exact apAssocReject_outcome _ _ _
            · rw [if_neg h3, if_neg h3]
              by_cases h4 : popcount info.pairwiseCiphers ≠ 1 ∨
                  natAnd info.pairwiseCiphers ap.ciphers = 0
              · rw [if_pos h4, if_pos h4]
                exact apAssocReject_outcome _ _ _
              · rw [if_neg h4, if_neg h4]
                by_cases h5 : info.akmSuites ≠ IE_RSN_AKM_SUITE_PSK
                · rw [if_pos h5, if_pos h5]
                  exact apAssocReject_outcome _ _ _
                · rw [if_neg h5, if_neg h5]
                  exact apAssocAccept_outcome _ _ _ _ _ _ _ _
        · rw [if_pos (by simp [h2]), if_pos (by simp [h2])]
          exact apAssocReject_outcome _ _ _

/-- Claim C7 witness: the amended theorem applied at concrete inputs,
once as an association request that passes every check (accepted) and
once as a reassociation from a not-yet-associated station (rejected
with CLASS3_FRAME_FROM_NONASSOC_STA). -/
theorem c7_witness :
    (ap_assoc_reassoc pskCodec pskAp (newStaState [2, 0, 0, 0, 0, 7]) false
        0 0 [(0, [78, 101, 116]), (1, [130]), (48, [1, 0])]).2.2.2 =
      AssocOutcome.accepted ∧
    (ap_assoc_reassoc pskCodec pskAp (newStaState [2, 0, 0, 0, 0, 7]) true
        0 0 [(0, [78, 101, 116]), (1, [130]), (48, [1, 0])]).2.2.2 =
      AssocOutcome.rejected
        MMPDU_REASON_CODE_CLASS3_FRAME_FROM_NONASSOC_STA :=
  ⟨(ap_assoc_rsn_validation pskCodec pskAp (newStaState [2, 0, 0, 0, 0, 7])
      false 0 0 [(0, [78, 101, 116]), (1, [130]), (48, [1, 0])]
      rfl rfl).trans rfl,
   (ap_assoc_rsn_validation pskCodec pskAp (newStaState [2, 0, 0, 0, 0, 7])
      true 0 0 [(0, [78, 101, 116]), (1, [130]), (48, [1, 0])]
      rfl rfl).trans rfl⟩

/-- Helper: with a WSC IE present in the frame, the IE scan loop never
records an RSN element (the RSN branch is skipped unparsed). -/
theorem apAssocParseIes_wsc_no_rsn (cdc : ApCodec) :
    ∀ (ies : List (Nat × Bytes)) (ssid : Option Bytes)
      (rates : Option (List Nat))
      (pr : Option Bytes × Option (List Nat) × Option (Bytes × RsnInfo)),
      apAssocParseIes cdc true ies ssid rates none = some pr →
      pr.2.2 = none := by
  intro ies
  induction ies with
  | nil =>
    intro ssid rates pr h
    injection h with h
    rw [← h]
  | cons hd tl ih =>
    intro ssid rates pr h
    obtain ⟨t, d⟩ := hd
    unfold apAssocParseIes at h
    split at h
    · exact ih _ _ _ h
    · split at h
      · split at h
        · exact Option.noConfusion h
        · exact ih _ _ _ h
      · split at h
        · rw [if_pos rfl] at h
          exact ih _ _ _ h
        · exact ih _ _ _ h

/-- Claim C10 (confirmed): a (re)association request frame carrying a
WSC IE never fails with INVALID_PAIRWISE_CIPHER or INVALID_AKMP — the
RSN element in it is skipped unparsed — and, when its WSC association
request is well-formed with request type Enrollee-Open-802.1X and the
SSID and rates checks pass, the request is accepted exactly when
active PBC mode is on and the sender's MAC matches the single recorded
PBC probe, and is otherwise refused with reason UNSPECIFIED. -/
theorem ap_assoc_wsc_ignores_rsn (cdc : ApCodec) (ap : ApState)
    (sta : StaState) (reassoc : Bool) (capability listenInterval : Nat)
    (ies : List (Nat × Bytes)) (w : Bytes)
    (hw : cdc.extractWsc ies = some w) :
    ((ap_assoc_reassoc cdc ap sta reassoc capability listenInterval
        ies).2.2.2 ≠
       AssocOutcome.rejected MMPDU_REASON_CODE_INVALID_PAIRWISE_CIPHER ∧
     (ap_assoc_reassoc cdc ap sta reassoc capability listenInterval
        ies).2.2.2 ≠
       AssocOutcome.rejected MMPDU_REASON_CODE_INVALID_AKMP) ∧
    (∀ ssid staRates req,
      sta.assocRespCmdId = 0 →
      apAssocParseIes cdc true ies none none none =
        some (some ssid, some staRates, none) →
      ssid = ap.config.ssid →
      ap_common_rates ap.rates staRates = true →
      cdc.wscParseAssocRequest w = some req →
      req.requestType = WSC_REQUEST_TYPE_ENROLLEE_OPEN_8021X →
      ((ap_assoc_reassoc cdc ap sta false capability listenInterval
          ies).2.2.2 = AssocOutcome.accepted ↔
        (ap.wscPbcTimeout = true ∧ ap.wscPbcProbes ≠ [] ∧
          ∀ rec, ap.wscPbcProbes.head? = some rec → rec.mac = sta.addr)) ∧
      ((ap_assoc_reassoc cdc ap sta false capability listenInterval
          ies).2.2.2 ≠ AssocOutcome.accepted →
        (ap_assoc_reassoc cdc ap sta false capability listenInterval
          ies).2.2.2 =
          AssocOutcome.rejected MMPDU_REASON_CODE_UNSPECIFIED)) := by
  constructor
  · unfold ap_assoc_reassoc
    rw [hw]
    simp only [Option.isSome_some]
    split
    · exact ⟨by simp, by simp⟩
    · split
      · constructor <;>
          simp [apAssocReject_outcome,
            MMPDU_REASON_CODE_CLASS3_FRAME_FROM_NONASSOC_STA,
            MMPDU_REASON_CODE_INVALID_PAIRWISE_CIPHER,
            MMPDU_REASON_CODE_INVALID_AKMP]
      · split
        · constructor <;>
            simp [apAssocReject_outcome, MMPDU_REASON_CODE_INVALID_IE,
              MMPDU_REASON_CODE_INVALID_PAIRWISE_CIPHER,
              MMPDU_REASON_CODE_INVALID_AKMP]
        · next ssidO ratesO rsnO hpr =>
          have hrsn : rsnO = none :=
            apAssocParseIes_wsc_no_rsn cdc ies none none
              (ssidO, ratesO, rsnO) hpr
          subst hrsn
          dsimp only
          split
          · constructor <;>
              simp [apAssocReject_outcome, MMPDU_REASON_CODE_INVALID_IE,
                MMPDU_REASON_CODE_INVALID_PAIRWISE_CIPHER,
                MMPDU_REASON_CODE_INVALID_AKMP]
          · split
            · constructor <;>
                simp [apAssocReject_outcome, MMPDU_REASON_CODE_UNSPECIFIED,
                  MMPDU_REASON_CODE_INVALID_PAIRWISE_CIPHER,
                  MMPDU_REASON_CODE_INVALID_AKMP]
            · split
              · constructor <;>
                  simp [apAssocReject_outcome,
                    MMPDU_REASON_CODE_INVALID_IE,
                    MMPDU_REASON_CODE_INVALID_PAIRWISE_CIPHER,
                    MMPDU_REASON_CODE_INVALID_AKMP]
              · split
                · constructor <;>
                    simp [apAssocReject_outcome,
                      MMPDU_REASON_CODE_INVALID_IE,
                      MMPDU_REASON_CODE_INVALID_PAIRWISE_CIPHER,
                      MMPDU_REASON_CODE_INVALID_AKMP]
                · split
                  · constructor <;>
                      simp [apAssocReject_outcome,
                        MMPDU_REASON_CODE_UNSPECIFIED,
                        MMPDU_REASON_CODE_INVALID_PAIRWISE_CIPHER,
                        MMPDU_REASON_CODE_INVALID_AKMP]
                  · split
                    · constructor <;>
                        simp [apAssocReject_outcome,
                          MMPDU_REASON_CODE_UNSPECIFIED,
                          MMPDU_REASON_CODE_INVALID_PAIRWISE_CIPHER,
                          MMPDU_REASON_CODE_INVALID_AKMP]
                    · split
                      · constructor <;>
                          simp [apAssocReject_outcome,
                            MMPDU_REASON_CODE_UNSPECIFIED,
                            MMPDU_REASON_CODE_INVALID_PAIRWISE_CIPHER,
                            MMPDU_REASON_CODE_INVALID_AKMP]
                      · split
                        · constructor <;>
                            simp [apAssocReject_outcome,
                              MMPDU_REASON_CODE_UNSPECIFIED,
                              MMPDU_REASON_CODE_INVALID_PAIRWISE_CIPHER,
                              MMPDU_REASON_CODE_INVALID_AKMP]
                        · constructor <;>
                            simp [apAssocAccept_outcome]
  · intro ssid staRates req hcmd hpr hss hcr hwreq hty
    have hout : (ap_assoc_reassoc cdc ap sta false capability listenInterval
        ies).2.2.2 =
        (if ap.wscPbcTimeout = false then
          AssocOutcome.rejected MMPDU_REASON_CODE_UNSPECIFIED
        else if ap.wscPbcProbes.isEmpty then
          AssocOutcome.rejected MMPDU_REASON_CODE_UNSPECIFIED
        else match ap.wscPbcProbes.head? with
          | none => AssocOutcome.rejected MMPDU_REASON_CODE_UNSPECIFIED
          | some record =>
            if record.mac ≠ sta.addr then
              AssocOutcome.rejected MMPDU_REASON_CODE_UNSPECIFIED
            else AssocOutcome.accepted) := by
      unfold ap_assoc_reassoc
      rw [if_neg (by simp [hcmd]), if_neg (by simp), hw]
      simp only [Option.isSome_some]
      rw [hpr]
      dsimp only
      rw [if_neg (by simp [hss]), if_neg (by simp [hcr])]
      simp only [Option.getD_some]
      rw [hwreq]
      dsimp only
      rw [if_neg (by simp [hty])]
      by_cases ht : ap.wscPbcTimeout = false
      · rw [if_pos (by simp [ht]), if_pos ht]
        exact apAssocReject_outcome _ _ _
      · rw [if_neg (by simp at ht ⊢; exact ht), if_neg ht]
        by_cases he : ap.wscPbcProbes.isEmpty = true
        · rw [if_pos he, if_pos he]
          exact apAssocReject_outcome _ _ _
        · rw [if_neg he, if_neg he]
          cases hh : ap.wscPbcProbes.head? with
          | none => exact apAssocReject_outcome _ _ _
          | some record =>
            dsimp only
            by_cases hmac : record.mac ≠ sta.addr
            · rw [if_pos hmac, if_pos hmac]
              exact apAssocReject_outcome _ _ _
            · rw [if_neg hmac, if_neg hmac]
              exact apAssocAccept_outcome _ _ _ _ _ _ _ _
    rw [hout]
    by_cases ht : ap.wscPbcTimeout = false
    · rw [if_pos ht]
      constructor
      · constructor
        · intro habs
          exact absurd habs (by simp)
        · intro ⟨h1, _⟩
          rw [h1] at ht
          exact absurd ht (by simp)
      · intro _
        rfl
    · rw [if_neg ht]
      have ht2 : ap.wscPbcTimeout = true := by
        cases h : ap.wscPbcTimeout
        · exact absurd h ht
        · rfl
      by_cases he : ap.wscPbcProbes.isEmpty = true
      · rw [if_pos he]
        constructor
        · constructor
          · intro habs
            exact absurd habs (by simp)
          · intro ⟨_, h2, _⟩
            rw [List.isEmpty_iff] at he
            exact absurd he h2
        · intro _
          rfl
      · rw [if_neg he]
        have hne : ap.wscPbcProbes ≠ [] := by
          intro habs
          rw [habs] at he
          exact he rfl
        cases hh : ap.wscPbcProbes.head? with
        | none =>
          rw [List.head?_eq_none_iff] at hh
          exact absurd hh hne
        | some record =>
          dsimp only
          by_cases hmac : record.mac ≠ sta.addr
          · rw [if_pos hmac]
            constructor
            · constructor
              · intro habs
                exact absurd habs (by simp)
              · intro ⟨_, _, h3⟩
                exact absurd (h3 record rfl) hmac
            · intro _
              rfl
          · rw [if_neg hmac]
            constructor
            · constructor
              · intro _
                refine ⟨ht2, hne, ?_⟩
                intro rec hrec
                rw [← Option.some.inj hrec]
                simp at hmac
                exact hmac
              · intro _
                rfl
            · intro habs
              exact absurd rfl habs

/-- A codec presenting a WSC IE and a well-formed WSC association
request, used by the C10 witness. -/
def wscWitnessCodec : ApCodec :=
  { wscParseProbeRequest := fun _ => none,
    wscParseAssocRequest := fun _ =>
      some { version2 := true, requestType := 1 },
    parseRsne := fun _ => none,
    extractWsc := fun _ => some [1] }

/-- An AP in active PBC mode whose sole PBC probe record matches the
enrollee. -/
def wscWitnessAp : ApState :=
  { addr := [9, 9, 9, 9, 9, 9],
    config := { ssid := [78, 101, 116], authorizedMacs := [] },
    ciphers := 16, rates := [2],
    wscPbcProbes := [⟨[2, 0, 0, 0, 0, 7], List.replicate 16 2, 100⟩],
    wscPbcTimeout := true, wscDpid := 4, lastAid := 0, staStates := [] }

/-- Claim C10 witness: the theorem applied at a concrete WSC
enrollment that is accepted. -/
theorem c10_witness :
    (ap_assoc_reassoc wscWitnessCodec wscWitnessAp
        (newStaState [2, 0, 0, 0, 0, 7]) false 0 0
        [(0, [78, 101, 116]), (1, [130])]).2.2.2 =
      AssocOutcome.accepted := by
  have h := (ap_assoc_wsc_ignores_rsn wscWitnessCodec wscWitnessAp
      (newStaState [2, 0, 0, 0, 0, 7]) false 0 0
      [(0, [78, 101, 116]), (1, [130])] [1] rfl).2
      [78, 101, 116] [2] { version2 := true, requestType := 1 }
      rfl rfl rfl rfl rfl rfl
  refine h.1.mpr ⟨rfl, by decide, ?_⟩
  intro rec hrec
  rw [← Option.some.inj hrec]
  rfl

/-- ap_assoc_req_cb (ap.c): find the Station by sender address; reply
STA_REQ_ASSOC_WITHOUT_AUTH when none exists, otherwise run
ap_assoc_reassoc on it (the C mutates the station in place; here the
record is replaced in the list, MACs being unique by construction). -/
def ap_assoc_req_cb (cdc : ApCodec) (ap : ApState) (fromAddr : Bytes)
    (capability listenInterval : Nat) (ies : List (Nat × Bytes)) :
    ApState × List ApEffect :=
  match ap.staStates.find? (fun s => s.addr = fromAddr) with
  | none =>
    (ap, [ApEffect.sendAssocResp fromAddr
            MMPDU_REASON_CODE_STA_REQ_ASSOC_WITHOUT_AUTH 0])
  | some sta =>
    let r := ap_assoc_reassoc cdc ap sta false capability listenInterval ies
    ({ r.1 with staStates :=
        r.1.staStates.map (fun s => if s.addr = fromAddr then r.2.1 else s) },
     r.2.2.1)

/-- ap_success_assoc_resp_cb with err = 0 followed by ap_associate_sta
(ap.c): on the success response's own ack, clear the command id, issue
NEW_STATION (or SET_STATION when already associated) and move the
Station to Associated with no RSNA. -/
def ap_success_assoc_resp_ack (ap : ApState) (fromAddr : Bytes) :
    ApState × List ApEffect :=
  match ap.staStates.find? (fun s => s.addr = fromAddr) with
  | none => (ap, [])
  | some sta =>
    ({ ap with staStates := ap.staStates.map (fun s =>
        if s.addr = fromAddr then
          { sta with assocRespCmdId := 0, associated := true, rsna := false }
        else s) },
     if sta.associated then [ApEffect.setStationAssociated sta.addr]
     else [ApEffect.newStation sta.addr])

/-- ap_deauth_cb (ap.c), modelled at the station-list level: the
Station record of the sender is removed from the AP's list. -/
def ap_deauth_cb_remove (ap : ApState) (fromAddr : Bytes) : ApState :=
  { ap with staStates := ap.staStates.filter (fun s => s.addr ≠ fromAddr) }

/-- The enrolling client's MAC in the C4 trace. -/
def c4Mac : Bytes := [2, 0, 0, 0, 0, 7]

/-- The Open System Authentication frame of the C4 trace. -/
def c4AuthFrame : AuthFrame :=
  { addr1 := [9, 9, 9, 9, 9, 9], addr2 := c4Mac, addr3 := [9, 9, 9, 9, 9, 9],
    algorithm := 0, transactionSequence := 1 }

/-- The association request IEs of the C4 trace: SSID "Net", rate
1 Mb/s basic, an RSNE. -/
def c4Ies : List (Nat × Bytes) := [(0, [78, 101, 116]), (1, [130]), (48, [1, 0])]

/-- The C4 trace's AP with a given last_aid value. -/
def c4Ap (n : Nat) : ApState :=
  { addr := [9, 9, 9, 9, 9, 9],
    config := { ssid := [78, 101, 116], authorizedMacs := [] },
    ciphers := 16, rates := [2], wscPbcProbes := [], wscPbcTimeout := false,
    wscDpid := 0, lastAid := n, staStates := [] }

/-- One full client visit: authenticate, associate successfully (one
AID is assigned), ack the response, deauthenticate. -/
def c4Cycle (ap : ApState) : ApState :=
  ap_deauth_cb_remove
    (ap_success_assoc_resp_ack
      (ap_assoc_req_cb pskCodec (ap_auth_cb ap c4AuthFrame).1 c4Mac 0 0
        c4Ies).1 c4Mac).1 c4Mac

/-- The Station record of the C4 trace after its successful
association (AID assigned, rates and IEs recorded, response command
pending). -/
def c4StaAssoc (n : Nat) : StaState :=
  { newStaState c4Mac with
    aid := (n + 1) % 65536, rates := some [2], assocIes := some c4Ies,
    assocRsne := some [48, 2, 1, 0], assocRespCmdId := 1 }

/-- The AP of the C4 trace right after the association response is
sent. -/
def c4ApAfterAssoc (n : Nat) : ApState :=
  { c4Ap n with lastAid := (n + 1) % 65536, staStates := [c4StaAssoc n] }

/-- The AP of the C4 trace after the response ack moves the station
to Associated. -/
def c4ApAfterAck (n : Nat) : ApState :=
  { c4Ap n with
    lastAid := (n + 1) % 65536,
    staStates := [{ c4StaAssoc n with
                    assocRespCmdId := 0, associated := true,
                    rsna := false }] }

/-- The Authentication step of the C4 trace creates the Station
record. -/
theorem c4_auth_step (n : Nat) :
    (ap_auth_cb (c4Ap n) c4AuthFrame).1 =
      { c4Ap n with staStates := [newStaState c4Mac] } := rfl

/-- ap_assoc_req_cb unfolded on a sender that has a Station
record. -/
theorem ap_assoc_req_cb_some (cdc : ApCodec) (ap : ApState)
    (fromAddr : Bytes) (capability listenInterval : Nat)
    (ies : List (Nat × Bytes)) (sta : StaState)
    (r : ApState × StaState × List ApEffect × AssocOutcome)
    (h : ap.staStates.find? (fun s => s.addr = fromAddr) = some sta)
    (hr : ap_assoc_reassoc cdc ap sta false capability listenInterval ies
            = r) :
    ap_assoc_req_cb cdc ap fromAddr capability listenInterval ies =
      ({ r.1 with
         staStates := r.1.staStates.map
           (fun s => if s.addr = fromAddr then r.2.1 else s) },
       r.2.2.1) := by
  unfold ap_assoc_req_cb
  rw [h]
  dsimp only
  rw [hr]

set_option maxHeartbeats 1000000 in
/-- Evaluation of the association logic on the C4 trace: the request
is accepted and AID last_aid+1 (mod 2^16) is assigned. -/
theorem c4_reassoc_eval (n : Nat) :
    ap_assoc_reassoc pskCodec
      { c4Ap n with staStates := [newStaState c4Mac] }
      (newStaState c4Mac) false 0 0 c4Ies =
      ({ c4Ap n with
         lastAid := (n + 1) % 65536,
         staStates := [newStaState c4Mac] },
       c4StaAssoc n,
       [ApEffect.sendAssocResp c4Mac 0 ((n + 1) % 65536)],
       AssocOutcome.accepted) := rfl

/-- The association request step of the C4 trace. -/
theorem c4_assoc_step (n : Nat) :
    (ap_assoc_req_cb pskCodec
      { c4Ap n with staStates := [newStaState c4Mac] }
      c4Mac 0 0 c4Ies).1 = c4ApAfterAssoc n := by
  rw [ap_assoc_req_cb_some pskCodec
        { c4Ap n with staStates := [newStaState c4Mac] }
        c4Mac 0 0 c4Ies (newStaState c4Mac) _ rfl (c4_reassoc_eval n)]
  rfl

/-- The response-ack step of the C4 trace. -/
theorem c4_ack_step (n : Nat) :
    (ap_success_assoc_resp_ack (c4ApAfterAssoc n) c4Mac).1 =
      c4ApAfterAck n := rfl

/-- Helper: one client visit advances last_aid by one (mod 2^16) and
leaves the rest of the AP state unchanged. -/
theorem c4Cycle_eq (n : Nat) : c4Cycle (c4Ap n) = c4Ap ((n + 1) % 65536) := by
  unfold c4Cycle
  rw [c4_auth_step, c4_assoc_step, c4_ack_step]
  rfl

/-- k client visits in sequence. -/
def c4Iter : Nat → ApState
  | 0 => c4Ap 0
  | k + 1 => c4Cycle (c4Iter k)

/-- Helper: after k client visits last_aid is k mod 2^16. -/
theorem c4Iter_eq (k : Nat) : c4Iter k = c4Ap (k % 65536) := by
  induction k with
  | zero => rfl
  | succ k ih =>
    show c4Cycle (c4Iter k) = c4Ap ((k + 1) % 65536)
    rw [ih, c4Cycle_eq]
    congr 1
    omega

/-- The AID the AP assigns to the next successfully associating
station. -/
def c4AssignedAid (ap : ApState) : Option Nat :=
  ((ap_assoc_req_cb pskCodec (ap_auth_cb ap c4AuthFrame).1 c4Mac 0 0
      c4Ies).1.staStates.map StaState.aid).head?

/-- Claim C4 counterexample: the 2008th successful association is
assigned AID 2008, outside [1,2007]; at the 65536th the uint16
counter wraps and AID 0 is assigned, so with an old station still
around AIDs would repeat. -/
theorem c4_counterexample :
    c4AssignedAid (c4Iter 2007) = some 2008 ∧ ¬ (2008 ≤ 2007) ∧
    c4AssignedAid (c4Iter 65535) = some 0 ∧ ¬ (1 ≤ 0) := by
  rw [c4Iter_eq 2007, c4Iter_eq 65535]
  exact ⟨rfl, by decide, rfl, by decide⟩

/-- Helper: dropping a station's RSNA state does not change whether
it is associated. -/
theorem apAssocDropRsna_associated (sta : StaState) :
    (apAssocDropRsna sta).1.associated = sta.associated := by
  unfold apAssocDropRsna
  split
  · rfl
  · split
    · rfl
    · rfl

/-- Helper: leaving active PBC mode does not touch the AID counter. -/
theorem ap_wsc_exit_pbc_lastAid (ap : ApState) :
    (ap_wsc_exit_pbc ap).1.lastAid = ap.lastAid := by
  unfold ap_wsc_exit_pbc
  split
  · rfl
  · rfl

/-- Helper: the success epilogue assigns AID last_aid+1 (uint16) to a
not-yet-associated station and stores the incremented counter. -/
theorem apAssocAccept_aid (ap : ApState) (sta : StaState)
    (capability listenInterval : Nat) (staRates : List Nat)
    (ies : List (Nat × Bytes)) (rsn : Option Bytes) (pre : List ApEffect)
    (hassoc : sta.associated = false) :
    (apAssocAccept ap sta capability listenInterval staRates ies rsn
        pre).2.1.aid = (ap.lastAid + 1) % 65536 ∧
    (apAssocAccept ap sta capability listenInterval staRates ies rsn
        pre).1.lastAid = (ap.lastAid + 1) % 65536 := by
  have h1 : (apAssocDropRsna sta).1.associated = false :=
    (apAssocDropRsna_associated sta).trans hassoc
  unfold apAssocAccept
  dsimp only
  rw [h1]
  exact ⟨rfl, rfl⟩

/-- Claim C4 (amended): on every successful (re)association of a
not-yet-associated station the AP assigns AID = last_aid + 1 reduced
modulo 2^16 (the uint16 increment `sta->aid = ++ap->last_aid`) and
stores the incremented counter; the counter is never range-checked,
so nothing confines assigned AIDs to [1,2007] or prevents reuse after
the counter wraps. -/
theorem ap_aid_assignment (cdc : ApCodec) (ap : ApState) (sta : StaState)
    (reassoc : Bool) (capability listenInterval : Nat)
    (ies : List (Nat × Bytes))
    (hassoc : sta.associated = false)
    (hacc : (ap_assoc_reassoc cdc ap sta reassoc capability listenInterval
        ies).2.2.2 = AssocOutcome.accepted) :
    (ap_assoc_reassoc cdc ap sta reassoc capability listenInterval
        ies).2.1.aid = (ap.lastAid + 1) % 65536 ∧
    (ap_assoc_reassoc cdc ap sta reassoc capability listenInterval
        ies).1.lastAid = (ap.lastAid + 1) % 65536 := by
  revert hacc
  unfold ap_assoc_reassoc
  dsimp only
  split
  · intro hacc
    exact absurd hacc (by simp)
  · split
    · intro hacc
      exact absurd hacc (by simp [apAssocReject_outcome])
    · split
      · intro hacc
        exact absurd hacc (by simp [apAssocReject_outcome])
      · split
        · intro hacc
          exact absurd hacc (by simp [apAssocReject_outcome])
        · split
          · intro hacc
            exact absurd hacc (by simp [apAssocReject_outcome])
          · split
            · split
              · intro hacc
                exact absurd hacc (by simp [apAssocReject_outcome])
              · split
                · intro hacc
                  exact absurd hacc (by simp [apAssocReject_outcome])
                · split
                  · intro hacc
                    exact absurd hacc (by simp [apAssocReject_outcome])
                  · split
                    · intro hacc
                      exact absurd hacc (by simp [apAssocReject_outcome])
                    · split
                      · intro hacc
                        exact absurd hacc (by simp [apAssocReject_outcome])
                      · split
                        · intro hacc
                          exact absurd hacc (by simp [apAssocReject_outcome])
                        · intro _
                          rw [show (ap.lastAid + 1) % 65536 =
                              ((ap_wsc_exit_pbc ap).1.lastAid + 1) % 65536
                            from by rw [ap_wsc_exit_pbc_lastAid]]
                          exact apAssocAccept_aid _ _ _ _ _ _ _ _ hassoc
            · split
              · intro hacc
                exact absurd hacc (by simp [apAssocReject_outcome])
              · split
                · intro hacc
                  exact absurd hacc (by simp [apAssocReject_outcome])
                · split
                  · intro hacc
                    exact absurd hacc (by simp [apAssocReject_outcome])
                  · intro _
                    exact apAssocAccept_aid ap sta capability
                      listenInterval _ ies _ _ hassoc

/-- Claim C4 witness: a CCMP/PSK association request from a fresh
station is accepted by the "Net" AP and receives AID last_aid+1. -/
theorem c4_witness :
    (ap_assoc_reassoc pskCodec pskAp (newStaState [2, 0, 0, 0, 0, 8])
        false 0 0 c4Ies).2.1.aid = (pskAp.lastAid + 1) % 65536 ∧
    (ap_assoc_reassoc pskCodec pskAp (newStaState [2, 0, 0, 0, 0, 8])
        false 0 0 c4Ies).1.lastAid = (pskAp.lastAid + 1) % 65536 :=
  ap_aid_assignment pskCodec pskAp (newStaState [2, 0, 0, 0, 0, 8])
    false 0 0 c4Ies rfl rfl

end Iwd
